import Mathlib

/-!
# Astera pack archive (`src/src/asset.c`, `src/include/astera/asset.h`)

A shallow embedding of the pack ("pak") code, of the asset map and of the
filesystem loaders and writers of the asset subsystem.

Conventions of the embedding

* C objects are values.  A byte is a `Nat` below 256, a `uint32_t` a `Nat`
  reduced modulo `2 ^ 32` wherever the C arithmetic can wrap, a memory block a
  `List Nat` of bytes, a C string the list of its bytes before the terminator.
* A pointer is `Ptr`: null, an address that designates no object, or a
  reference to an object.
* A run either returns (`Res.ret`) or has no defined result (`Res.ub`): a
  dereference of a null or invalid pointer, a read of an array element that does
  not exist, a call of a library function on an argument it does not accept.
* A heap array is a list.  A store at index `length` extends the list when the
  block was sized for that element; a store outside the block that was asked
  for (line 228 of `pak_remove`, line 515 of `pak_write`) has no defined
  result.  `malloc` and `realloc` always return a block (for a request of zero
  bytes too).  The block that a caller passes to `pak_extract_noalloc` has no
  recorded size: bytes stored past its end extend the list.
* Assets that a map and its callers share live in a heap, a list of asset
  objects addressed by position; a pointer to an asset is its address.
* The file system is an association list from paths to contents.  A path can be
  opened exactly when it is present; creating, truncating and deleting always
  succeed.  Bytes written to a stream reach the file.
-/

namespace Astera

/-! ## Results, pointers, bytes -/

/-- Result of running a C function: `ub` when the run has undefined behaviour,
`ret a` when it returns `a`. -/
inductive Res (α : Type) where
  | ub : Res α
  | ret : α → Res α
deriving DecidableEq, Repr

/-- Sequencing of runs: undefined behaviour is absorbing. -/
def Res.bind {α β : Type} : Res α → (α → Res β) → Res β
  | Res.ub, _ => Res.ub
  | Res.ret a, f => f a

instance : Monad Res where
  pure := Res.ret
  bind := Res.bind

/-- A C pointer to an object of type `α`. -/
inductive Ptr (α : Type) where
  | null : Ptr α
  | wild : Nat → Ptr α
  | obj : α → Ptr α
deriving DecidableEq, Repr

/-- Dereference: defined only for a pointer to an object. -/
def Ptr.deref {α : Type} : Ptr α → Res α
  | Ptr.obj a => Res.ret a
  | _ => Res.ub

/-- Truth value of a pointer used as a condition. -/
def Ptr.isNull {α : Type} : Ptr α → Bool
  | Ptr.null => true
  | _ => false

/-- Range of `uint32_t`. -/
def U32 : Nat := 2 ^ 32

/-- Bytes of an ASCII string literal. -/
def cstr (s : String) : List Nat := s.toList.map Char.toNat

/-- The four signature bytes `"PACK"`. -/
def PACK : List Nat := [80, 65, 67, 75]

/-- The C string stored in a character array: its bytes before the first
zero byte, or nothing when the array holds no terminator. -/
def c_str (mem : List Nat) : Option (List Nat) :=
  if 0 ∈ mem then some (mem.takeWhile (fun c => c != 0)) else none

/-- Element `i` of a C array held as a list; reading past the end is
undefined. -/
def readAt {α : Type} (xs : List α) (i : Nat) : Res α :=
  match xs.get? i with
  | some a => Res.ret a
  | none => Res.ub

/-- The call `strcmp(a, b) == 0` on a character array `a` and a string `b`. -/
def strcmp_eq (a : List Nat) (b : List Nat) : Res Bool :=
  match c_str a with
  | some s => Res.ret (s == b.takeWhile (fun c => c != 0))
  | none => Res.ub

/-! ## Byte order (`asset.c` lines 19-33) -/

/-- Build parameters the source depends on. `msvcX86` says that `_M_IX86` or
`_M_X64` is defined (line 23); `bigEndian` is the byte order of the host. -/
structure Build where
  msvcX86 : Bool
  bigEndian : Bool
deriving DecidableEq, Repr

/-- Lines 19-21. -/
def pak_swap32 (t : Nat) : Nat :=
  ((t >>> 24) ||| ((t <<< 24) % U32) ||| ((t >>> 8) &&& 0xff00) |||
    (((t &&& 0xff00) <<< 8) % U32)) % U32

/-- Lines 26-27 and 31-32: the macro `ltoh32`. -/
def ltoh32 (b : Build) (x : Nat) : Nat :=
  if b.msvcX86 then x else pak_swap32 x

/-- Lines 26 and 31: the macro `htol32`. -/
def htol32 (b : Build) (x : Nat) : Nat :=
  if b.msvcX86 then x else pak_swap32 x

/-- Little-endian value of four bytes (missing bytes read as zero). -/
def le32 (bs : List Nat) : Nat :=
  bs.getD 0 0 % 256 + 256 * (bs.getD 1 0 % 256) + 65536 * (bs.getD 2 0 % 256) +
    16777216 * (bs.getD 3 0 % 256)

/-- Little-endian bytes of a 32-bit value. -/
def le32_bytes (v : Nat) : List Nat :=
  [v % 256, v / 256 % 256, v / 65536 % 256, v / 16777216 % 256]

/-- The `uint32_t` that the host reads from four bytes of memory. -/
def load32 (b : Build) (bs : List Nat) : Nat :=
  if b.bigEndian then le32 (bs.take 4).reverse else le32 (bs.take 4)

/-- The four bytes of memory that hold a `uint32_t` on the host. -/
def store32 (b : Build) (v : Nat) : List Nat :=
  if b.bigEndian then (le32_bytes v).reverse else le32_bytes v

/-! ## Data model (`asset.h` lines 24-108) -/

/-- Lines 24-37 of `asset.h`. -/
structure asset_t where
  uid : Nat
  data : Ptr (List Nat)
  data_length : Nat
  name : Option (List Nat)
  chunk_start : Int
  chunk_length : Int
  fs : Nat
  filled : Nat
  req : Nat
  req_free : Nat
  chunk : Nat
deriving DecidableEq, Repr

/-- Lines 46-50 of `asset.h`: a 64-byte record. `name` is the raw 56-byte
field. -/
structure pak_file_t where
  name : List Nat
  offset : Nat
  size : Nat
deriving DecidableEq, Repr

/-- Lines 54-61 of `asset.h`. -/
inductive pak_change_type where
  | PAK_KEEP
  | PAK_ADD_FILE
  | PAK_ADD_MEM
  | PAK_MODIFY_FILE
  | PAK_MODIFY_MEM
  | PAK_REMOVE
deriving DecidableEq, Repr

/-- The union `data` of `pak_change_t` (lines 83-86 of `asset.h`): all bytes
zero, a path, or an asset. -/
inductive change_data where
  | zero : change_data
  | filepath : Option (List Nat) → change_data
  | asset : asset_t → change_data
deriving DecidableEq, Repr

/-- Lines 78-89 of `asset.h`. `file` points into the entry table of the
handle and is held as the index of the entry it points to. -/
structure pak_change_t where
  file : Option Nat
  filename : Option (List Nat)
  data : change_data
  type : pak_change_type
deriving DecidableEq, Repr

/-- The union `data` of `pak_write_t` (lines 69-73 of `asset.h`). -/
inductive write_data where
  | zero : write_data
  | filepath : Option (List Nat) → write_data
  | asset : asset_t → write_data
  | file : Nat → write_data
deriving DecidableEq, Repr

/-- Lines 64-76 of `asset.h`. -/
structure pak_write_t where
  name : List Nat
  offset : Nat
  size : Nat
  data : write_data
  type : pak_change_type
deriving DecidableEq, Repr

/-- Lines 91-108 of `asset.h`. A null `entries` or `changes` pointer is the
empty list. -/
structure pak_t where
  data_ptr : Ptr (List Nat)
  data_size : Nat
  entries : List pak_file_t
  count : Nat
  file_size : Nat
  filepath : Option (List Nat)
  changes : List pak_change_t
  change_count : Nat
  has_change : Nat
  file_mode : Nat
deriving DecidableEq, Repr

/-- A handle whose bytes are all zero (`memset(pak, 0, sizeof(pak_t))`). -/
def pak_zero : pak_t :=
  { data_ptr := Ptr.null, data_size := 0, entries := [], count := 0, file_size := 0,
    filepath := none, changes := [], change_count := 0, has_change := 0, file_mode := 0 }

/-- An asset whose bytes are all zero (`(asset_t){0}`). -/
def asset_zero : asset_t :=
  { uid := 0, data := Ptr.null, data_length := 0, name := none, chunk_start := 0,
    chunk_length := 0, fs := 0, filled := 0, req := 0, req_free := 0, chunk := 0 }

/-- Member `data.filepath` of a change. Reading it from a union that holds an
asset has no defined value. -/
def change_data.get_filepath : change_data → Res (Option (List Nat))
  | change_data.zero => Res.ret none
  | change_data.filepath p => Res.ret p
  | change_data.asset _ => Res.ub

/-- Member `data.asset.data_length` of a change. -/
def change_data.get_data_length : change_data → Res Nat
  | change_data.zero => Res.ret 0
  | change_data.asset a => Res.ret a.data_length
  | change_data.filepath _ => Res.ub

/-! ## File system -/

/-- Files by path. -/
abbrev FS := List (List Nat × List Nat)

/-- Content of the file at a path, if there is one. -/
def fsRead (fs : FS) (path : List Nat) : Option (List Nat) :=
  match fs.find? (fun e => e.1 == path) with
  | some e => some e.2
  | none => none

/-- Deletion of a path. -/
def fsRemove (fs : FS) (path : List Nat) : FS :=
  fs.filter (fun e => e.1 != path)

/-- Creation or replacement of the file at a path. -/
def fsWrite (fs : FS) (path : List Nat) (content : List Nat) : FS :=
  (path, content) :: fsRemove fs path

/-- The call `fopen(path, mode)` for a mode that does not create: the content
of the file, or null when it is absent. A null path is not accepted. -/
def fopen_existing (fs : FS) (path : Option (List Nat)) : Res (Option (List Nat)) :=
  match path with
  | none => Res.ub
  | some p => Res.ret (fsRead fs p)

/-- Result of `fread(dst, 1, n, f)` on a stream positioned at `pos`: the bytes
obtained, at most `n`, none when `pos` is at or past the end. -/
def fread_at (content : List Nat) (pos n : Nat) : List Nat :=
  (content.drop pos).take n

/-! ## Opening a pack (`asset.c` lines 40-192) -/

/-- One 64-byte record read from a file into memory and converted by lines
128-132. -/
def parse_entry (b : Build) (rec : List Nat) : pak_file_t :=
  { name := rec.take 56,
    offset := ltoh32 b (load32 b (rec.drop 56)),
    size := ltoh32 b (load32 b (rec.drop 60)) }

/-- The first `n` records of a block of bytes. -/
def parse_entries (b : Build) : Nat → List Nat → List pak_file_t
  | 0, _ => []
  | n + 1, bytes => parse_entry b (bytes.take 64) :: parse_entries b n (bytes.drop 64)

/-- Lines 40-137. `fresh` is the content of the block that `malloc` returns at
line 77, which the branch of lines 79-89 does not clear. `ASTERA_NO_PAK_WRITE`
is taken as undefined: with it lines 85-87 name fields that do not exist.
The result is the returned pointer and the file system after the call. -/
def pak_open_file (b : Build) (fresh : pak_t) (file : List Nat) (fs : FS) :
    Res (Ptr pak_t × FS) :=
  -- lines 41-49: stat, and creation of an empty file when the path is absent
  let fs1 := if (fsRead fs file).isSome then fs else fsWrite fs file []
  -- lines 51-56
  match fsRead fs1 file with
  | none => Res.ret (Ptr.null, fs1)
  | some content =>
    -- lines 58-62: the header starts as zero and receives what the file holds
    let raw := content.take 12 ++ List.replicate (12 - content.length) 0
    let id := raw.take 4
    let count := ltoh32 b (load32 b (raw.drop 4))
    let file_size := ltoh32 b (load32 b (raw.drop 8))
    -- lines 64-68: `!memcmp(...)` holds when the four bytes ARE "PACK"
    if id == PACK then Res.ret (Ptr.null, fs1)
    -- lines 70-89
    else if count == 0 then
      Res.ret (Ptr.obj { fresh with
        file_mode := 1, count := 0, entries := [], file_size := 0, filepath := some file,
        changes := [], change_count := 0, has_change := 0 }, fs1)
    else
      -- lines 97-126: `fread(entries, count, 64, f)` returns the number of
      -- complete items of `count` bytes, at most 64
      let rest := content.drop 12
      if min 64 (rest.length / count) != 64 then Res.ret (Ptr.null, fs1)
      else
        -- lines 128-136; `filepath` keeps the zero of line 97
        Res.ret (Ptr.obj { pak_zero with
          file_mode := 1, count := count, file_size := file_size,
          entries := parse_entries b count rest }, fs1)

/-- The statement `*(uint32_t*)(buf + off) = ltoh32(*(uint32_t*)(buf + off))`. -/
def convert_in_place (b : Build) (buf : List Nat) (off : Nat) : Res (List Nat) :=
  if off + 4 ≤ buf.length then
    Res.ret (buf.take off ++ store32 b (ltoh32 b (load32 b (buf.drop off))) ++ buf.drop (off + 4))
  else Res.ub

/-- Lines 186-189, `n` iterations starting at index `i`. `pak->entries` is
`(pak_file_t*)data + sizeof(pak_header_t)`, that is `data` plus 12 records of 64
bytes: byte 768 of the buffer. -/
def pak_open_mem_loop (b : Build) : Nat → Nat → List Nat → Res (List Nat)
  | 0, _, buf => Res.ret buf
  | n + 1, i, buf => do
    let buf1 ← convert_in_place b buf (768 + 64 * i + 60)
    let buf2 ← convert_in_place b buf1 (768 + 64 * i + 56)
    pak_open_mem_loop b n (i + 1) buf2

/-- A record seen through a `pak_file_t*` that points into a buffer. -/
def view_entry (b : Build) (rec : List Nat) : pak_file_t :=
  { name := rec.take 56, offset := load32 b (rec.drop 56), size := load32 b (rec.drop 60) }

/-- The first `n` records seen through a pointer into a buffer. -/
def view_entries (b : Build) : Nat → List Nat → List pak_file_t
  | 0, _ => []
  | n + 1, bytes => view_entry b (bytes.take 64) :: view_entries b n (bytes.drop 64)

/-- Lines 139-190: the handle that the function has filled in when it reaches
line 191 (nothing when it has returned null before), and the buffer. -/
def pak_open_mem_body (b : Build) (data : Ptr (List Nat)) (data_length : Nat) :
    Res (Option pak_t × Ptr (List Nat)) :=
  -- lines 140-143
  if data.isNull || data_length == 0 then Res.ret (none, data)
  else do
    let buf ← data.deref
    -- lines 173-177: `memcmp` reads four bytes
    if buf.length < 4 then Res.ub
    else if buf.take 4 != PACK then Res.ret (none, data)
    else do
      -- lines 179-180
      let buf1 ← convert_in_place b buf 4
      let buf2 ← convert_in_place b buf1 8
      let count := load32 b (buf1.drop 4)
      -- lines 183-189
      let buf3 ← pak_open_mem_loop b count 0 buf2
      Res.ret (some { pak_zero with
        file_mode := 0, file_size := 0, entries := view_entries b count (buf3.drop 768) },
        Ptr.obj buf3)

/-- Lines 139-192. The result is the returned pointer and the caller's
buffer after the call. Line 191 is `return 1;`: the value returned on the
success path is the integer 1 converted to a pointer, not the handle. -/
def pak_open_mem (b : Build) (data : Ptr (List Nat)) (data_length : Nat) :
    Res (Ptr pak_t × Ptr (List Nat)) := do
  let r ← pak_open_mem_body b data data_length
  match r with
  | (none, buf) => Res.ret (Ptr.null, buf)
  | (some _, buf) => Res.ret (Ptr.wild 1, buf)

/-! ## Queries (`asset.c` lines 766-809) -/

/-- Conversion of a `uint32_t` to `int32_t`. -/
def to_int32 (v : Nat) : Int :=
  if v % U32 < 2 ^ 31 then Int.ofNat (v % U32) else Int.ofNat (v % U32) - Int.ofNat U32

/-- Lines 770-776, `n` iterations starting at index `i`. -/
def pak_find_loop (entries : List pak_file_t) (filename : List Nat) : Nat → Nat → Res Int
  | 0, _ => Res.ret (-1)
  | n + 1, i => do
    let e ← readAt entries i
    let eq ← strcmp_eq e.name filename
    if eq then Res.ret (to_int32 i) else pak_find_loop entries filename n (i + 1)

/-- Lines 766-777. -/
def pak_find (pak : Ptr pak_t) (filename : List Nat) : Res Int :=
  match pak with
  | Ptr.null => Res.ret (-1)
  | Ptr.wild _ => Res.ub
  | Ptr.obj p => pak_find_loop p.entries filename p.count 0

/-- Lines 786-791. -/
def pak_count (pak : Ptr pak_t) : Res Nat :=
  match pak with
  | Ptr.null => Res.ret 0
  | Ptr.wild _ => Res.ub
  | Ptr.obj p => Res.ret p.count

/-- Lines 793-797. -/
def pak_offset (pak : Ptr pak_t) (index : Nat) : Res Nat :=
  match pak with
  | Ptr.null => Res.ret 0
  | Ptr.wild _ => Res.ub
  | Ptr.obj p =>
    if index < p.count then do
      let e ← readAt p.entries index
      Res.ret e.offset
    else Res.ret 0

/-- Lines 799-803. -/
def pak_size (pak : Ptr pak_t) (index : Nat) : Res Nat :=
  match pak with
  | Ptr.null => Res.ret 0
  | Ptr.wild _ => Res.ub
  | Ptr.obj p =>
    if index < p.count then do
      let e ← readAt p.entries index
      Res.ret e.size
    else Res.ret 0

/-- Lines 805-809: the name field of the entry, or null. -/
def pak_name (pak : Ptr pak_t) (index : Nat) : Res (Option (List Nat)) :=
  match pak with
  | Ptr.null => Res.ret none
  | Ptr.wild _ => Res.ub
  | Ptr.obj p =>
    if index < p.count then do
      let e ← readAt p.entries index
      Res.ret (some e.name)
    else Res.ret none

/-! ## The change log (`asset.c` lines 195-318) -/

/-- The store `xs[i] = x` into a heap array held as a list: it replaces an
element or, at index `length`, extends the list. -/
def storeAt {α : Type} (xs : List α) (i : Nat) (x : α) : Res (List α) :=
  if i < xs.length then Res.ret (xs.set i x)
  else if i = xs.length then Res.ret (xs ++ [x])
  else Res.ub

/-- The value of `sizeof(pak_change_t)`: two pointers, a union that holds an
`asset_t`, and the type. It is 72 where pointers have 8 bytes and 44 where they
have 4. -/
def sizeof_pak_change_t : Nat := 72

/-- Lines 215-217: the change that `pak_remove` builds for an entry. Its
`filename` stays null. -/
def pak_remove_change (entry : Nat) : pak_change_t :=
  { file := some entry, filename := none, data := change_data.zero,
    type := pak_change_type.PAK_REMOVE }

/-- Lines 195-232. The result is the returned value and the handle after the
call. Line 200 reads `pak->file_mode` before the null test of line 205. Line
221 resizes the change log to `sizeof(pak->change_count)`, four bytes, and line
228 stores a whole change at index `change_count - 1` of that block. The bytes
of that element lie outside the block, so a call that passes the tests of lines
200-213 has no defined result. -/
def pak_remove (pak : Ptr pak_t) (entry : Nat) : Res (Nat × Ptr pak_t) := do
  let p ← pak.deref
  if p.file_mode == 0 then Res.ret (0, pak)
  else if entry > p.count then Res.ret (0, pak)
  else do
    let change := pak_remove_change entry
    let change_count := (p.change_count + 1) % U32
    -- line 221: the size asked for is `sizeof(pak->change_count)`
    let block_bytes := 4
    let index := (change_count + U32 - 1) % U32
    -- line 228
    if (index + 1) * sizeof_pak_change_t ≤ block_bytes then do
      let changes ← storeAt p.changes index change
      Res.ret (1, Ptr.obj { p with change_count := change_count, changes := changes,
                                   has_change := 1 })
    else Res.ub

/-- Lines 234-271. `has_change` is not assigned. -/
def pak_add_file (pak : Ptr pak_t) (filename : Option (List Nat)) : Res (Nat × Ptr pak_t) :=
  match pak with
  | Ptr.null => Res.ret (0, pak)
  | Ptr.wild _ => Res.ub
  | Ptr.obj p =>
    if p.file_mode == 0 then Res.ret (0, pak)
    else if filename.isNone then Res.ret (0, pak)
    else do
      let change := p.change_count
      let changes ← storeAt p.changes change
        { file := none, filename := filename, data := change_data.filepath filename,
          type := pak_change_type.PAK_ADD_FILE }
      Res.ret (1, Ptr.obj { p with change_count := (p.change_count + 1) % U32,
                                   changes := changes })

/-- Lines 273-318. The test of line 290 only logs. `has_change` is not
assigned. -/
def pak_add_mem (pak : Ptr pak_t) (filename : Option (List Nat)) (data : Ptr (List Nat))
    (data_length : Nat) : Res (Nat × Ptr pak_t) :=
  match pak with
  | Ptr.null => Res.ret (0, pak)
  | Ptr.wild _ => Res.ub
  | Ptr.obj p =>
    if p.file_mode == 0 then Res.ret (0, pak)
    else if filename.isNone then Res.ret (0, pak)
    else do
      let asset : asset_t := { asset_zero with data := data, data_length := data_length }
      let change : pak_change_t :=
        { filename := filename, type := pak_change_type.PAK_ADD_MEM, file := none,
          data := change_data.asset asset }
      let change_count := (p.change_count + 1) % U32
      let changes ← storeAt p.changes ((change_count + U32 - 1) % U32) change
      Res.ret (1, Ptr.obj { p with change_count := change_count, changes := changes })

/-! ## Extraction (`asset.c` lines 321-420) -/

/-- Lines 321-379. The result is the returned pointer (for a block, its
bytes) and the value stored through `size`, if one is stored. -/
def pak_extract (pak : Ptr pak_t) (index : Nat) (fs : FS) :
    Res (Ptr (List Nat) × Option Nat) :=
  match pak with
  | Ptr.null => Res.ret (Ptr.null, none)
  | Ptr.wild _ => Res.ub
  | Ptr.obj p =>
    -- line 327: the test is `>`, so `index == count` passes
    if index > p.count then Res.ret (Ptr.null, none)
    else if p.file_mode != 0 then do
      let f ← fopen_existing fs p.filepath
      match f with
      | none => Res.ret (Ptr.null, none)
      | some content => do
        let entry ← readAt p.entries index
        -- lines 342-361: a zeroed block of `size` bytes receives what `fread`
        -- obtains; only a read of nothing is a failure
        let got := fread_at content entry.offset entry.size
        if got.length == 0 then Res.ret (Ptr.null, none)
        else Res.ret (Ptr.obj (got ++ List.replicate (entry.size - got.length) 0),
                      some entry.size)
    else do
      let entry ← readAt p.entries index
      -- line 369: `data_ptr + offset`
      let data : Ptr (List Nat) :=
        match p.data_ptr with
        | Ptr.null => if entry.offset == 0 then Ptr.null else Ptr.wild entry.offset
        | Ptr.wild a => Ptr.wild (a + entry.offset)
        | Ptr.obj buf =>
          if entry.offset ≤ buf.length then Ptr.obj (buf.drop entry.offset)
          else Ptr.wild entry.offset
      Res.ret (data, some entry.size)

/-- What a call of `pak_extract_noalloc` leaves: the returned value, the bytes
that start at `out`, and whether `out` was passed to `free`. -/
structure noalloc_result where
  returned : Nat
  out : Ptr (List Nat)
  out_freed : Bool
deriving DecidableEq, Repr

/-- Lines 381-420. `out_cap` is used at line 383 only. Bytes stored past the
end of the caller's block extend the list. -/
def pak_extract_noalloc (pak : Ptr pak_t) (index : Nat) (out : Ptr (List Nat)) (out_cap : Nat)
    (fs : FS) : Res noalloc_result :=
  if out.isNull || out_cap == 0 then
    Res.ret { returned := 0, out := out, out_freed := false }
  else do
    -- line 388 reads `pak->count` with no null test
    let p ← pak.deref
    if index > p.count then Res.ret { returned := 0, out := out, out_freed := false }
    else if p.file_mode != 0 then do
      let f ← fopen_existing fs p.filepath
      match f with
      | none => Res.ret { returned := 0, out := out, out_freed := false }
      | some content => do
        let entry ← readAt p.entries index
        let dst ← out.deref
        let got := fread_at content entry.offset entry.size
        if got.length == 0 then
          -- lines 404-409: `free(out)`
          Res.ret { returned := 0, out := out, out_freed := true }
        else
          Res.ret { returned := entry.size, out := Ptr.obj (got ++ dst.drop got.length),
                    out_freed := false }
    else do
      let entry ← readAt p.entries index
      let dst ← out.deref
      let src ← p.data_ptr.deref
      -- line 415: `memcpy` reads `size` bytes at `data_ptr + offset`
      if entry.offset + entry.size ≤ src.length then
        Res.ret { returned := entry.size,
                  out := Ptr.obj ((src.drop entry.offset).take entry.size ++ dst.drop entry.size),
                  out_freed := false }
      else Res.ub

/-- Lines 422-440. -/
def fs_file_size (fs : FS) (fp : Option (List Nat)) : Nat :=
  match fp with
  | none => 0
  | some path =>
    match fsRead fs path with
    | none => 0
    | some content => content.length % U32

/-! ## Writing (`asset.c` lines 443-764) -/

/-- The path `"tmp.pak"`. -/
def tmp_pak : List Nat := [116, 109, 112, 46, 112, 97, 107]

/-- A loop `for (j = 0; j < n; ++j) if (test) { valid = 1; break; }` whose
test does not mention `j`. -/
def name_scan (test : Res Bool) : Nat → Res Bool
  | 0 => Res.ret false
  | n + 1 => do
    let eq ← test
    if eq then Res.ret true else name_scan test n

/-- The call `strcmp(a, b) == 0` on two character arrays. -/
def strcmp_arrays (a b : List Nat) : Res Bool :=
  match c_str b with
  | some s => strcmp_eq a s
  | none => Res.ub

/-- Value of a pointer that has to be dereferenced. -/
def nonNull {α : Type} : Option α → Res α
  | some a => Res.ret a
  | none => Res.ub

/-- Lines 447-476, `n` iterations starting at change `i` with the running
`entry_count`. The inner loops compare `pak->entries[i]`, indexed by the
change, on every pass. -/
def pak_write_count (p : pak_t) : Nat → Nat → Nat → Res Nat
  | 0, _, entry_count => Res.ret entry_count
  | n + 1, i, entry_count => do
    let change ← readAt p.changes i
    match change.type with
    | pak_change_type.PAK_REMOVE => do
      let valid ← name_scan (do
        let e ← readAt p.entries i
        let k ← nonNull change.file
        let f ← readAt p.entries k
        strcmp_arrays e.name f.name) p.count
      pak_write_count p n (i + 1) (if valid then (entry_count + U32 - 1) % U32 else entry_count)
    | pak_change_type.PAK_ADD_FILE | pak_change_type.PAK_ADD_MEM => do
      let valid ← name_scan (do
        let e ← readAt p.entries i
        let s ← nonNull change.filename
        strcmp_eq e.name s) p.count
      pak_write_count p n (i + 1) (if valid then (entry_count + 1) % U32 else entry_count)
    | _ => pak_write_count p n (i + 1) entry_count

/-- Lines 497-512 for entry `i`, `n` iterations: whether the entry is removed,
and its size. The change examined is `pak->changes[i]`, indexed by the entry,
on every pass; a pass without a match changes nothing. -/
def pak_write_match (p : pak_t) (fs : FS) (i : Nat) (entry : pak_file_t) : Nat → Res (Bool × Nat)
  | 0 => Res.ret (false, entry.size)
  | n + 1 => do
    let change ← readAt p.changes i
    let s ← nonNull change.filename
    let eq ← strcmp_eq entry.name s
    if eq then
      match change.type with
      | pak_change_type.PAK_REMOVE => Res.ret (true, entry.size)
      | pak_change_type.PAK_MODIFY_MEM => do
        let len ← change.data.get_data_length
        Res.ret (false, len)
      | pak_change_type.PAK_MODIFY_FILE => do
        let path ← change.data.get_filepath
        Res.ret (false, fs_file_size fs path)
      | _ => Res.ret (false, entry.size)
    else pak_write_match p fs i entry n

/-- Lines 490-535, `n` iterations starting at entry `i`. The `change` tested
at line 517 is the one declared at line 495, which is never assigned (line 498
declares another), so every entry that stays is a `PAK_KEEP`. The block of
line 478 has `entry_count` elements; a store at `writes[write_count]` outside
it has no defined result. -/
def pak_write_keep (p : pak_t) (fs : FS) (entry_count : Nat) :
    Nat → Nat → List pak_write_t → Res (List pak_write_t)
  | 0, _, writes => Res.ret writes
  | n + 1, i, writes => do
    let entry ← readAt p.entries i
    let r ← pak_write_match p fs i entry p.change_count
    if r.1 then pak_write_keep p fs entry_count n (i + 1) writes
    else if writes.length < entry_count then
      pak_write_keep p fs entry_count n (i + 1) (writes ++ [
        { name := entry.name, size := r.2, offset := 0, data := write_data.file i,
          type := pak_change_type.PAK_KEEP }])
    else Res.ub

/-- Lines 537-568, `n` iterations starting at change `i`. Line 562 is
`memset(write->name + (namelen > 55) ? 55 : namelen, 0, 56 - namelen)`; its
first argument parses as `(write->name + (namelen > 55)) ? 55 : namelen`, the
integer 55, so the call that follows the copy of the name stores through an
address that designates no object. -/
def pak_write_add (p : pak_t) (fs : FS) : Nat → Nat → List pak_write_t → Res (List pak_write_t)
  | 0, _, writes => Res.ret writes
  | n + 1, i, writes => do
    let change ← readAt p.changes i
    let r ← (match change.type with
      | pak_change_type.PAK_ADD_MEM => do
        let len ← change.data.get_data_length
        Res.ret (len, true)
      | pak_change_type.PAK_ADD_FILE => do
        let path ← change.data.get_filepath
        Res.ret (fs_file_size fs path, true)
      | _ => Res.ret (0, false) : Res (Nat × Bool))
    -- lines 551-554: `break`
    if r.1 == 0 then Res.ret writes
    else if r.2 then Res.ub
    else pak_write_add p fs n (i + 1) writes

/-- Lines 572-576: the forward scan, from the running offset; the result is the
table and the offset after the last entry. -/
def assign_offsets : List pak_write_t → Nat → List pak_write_t × Nat
  | [], offset => ([], offset)
  | w :: ws, offset =>
    let r := assign_offsets ws ((offset + w.size) % U32)
    ({ w with offset := offset } :: r.1, r.2)

/-- Lines 614-620: the bytes of one record. -/
def record_bytes (b : Build) (w : pak_write_t) : List Nat :=
  w.name ++ store32 b (ltoh32 b w.offset) ++ store32 b (ltoh32 b w.size)

/-- Lines 603-621: the bytes of the header and of the table. -/
def table_bytes (b : Build) (writes : List pak_write_t) (offset : Nat) : List Nat :=
  PACK ++ store32 b (ltoh32 b writes.length) ++ store32 b (ltoh32 b offset) ++
    (writes.map (record_bytes b)).flatten

/-- Lines 639-657 and 668-686: the copy loop. Its read is
`fread(file, read_amount, sizeof(char), rewrite_buff)`, with the character
array in the place of the stream. A request of zero bytes returns zero; any
other request has no defined result. The value is whether `check` equals
`size`. -/
def copy_loop (size : Nat) : Res Bool :=
  let read_amount := if size > 128 then 128 else size
  if read_amount == 0 then Res.ret (0 == size) else Res.ub

/-- Lines 625-687 for one entry of the table, `out` being the bytes already in
the temporary file: the bytes after the entry, or nothing at a `return 0`. -/
def pak_write_entry (p : pak_t) (fs : FS) (base : Option (List Nat)) (w : pak_write_t)
    (out : List Nat) : Res (Option (List Nat)) :=
  match w.type with
  | pak_change_type.PAK_ADD_MEM =>
    match w.data with
    | write_data.asset a =>
      -- line 628: `fwrite(data, data_length, 1, tmp)`
      if a.data_length == 0 then Res.ret (some out)
      else do
        let d ← a.data.deref
        if a.data_length ≤ d.length then Res.ret (some (out ++ d.take a.data_length))
        else Res.ub
    | _ => Res.ub
  | pak_change_type.PAK_ADD_FILE =>
    match w.data with
    | write_data.filepath path => do
      let f ← fopen_existing fs path
      match f with
      | none => Res.ret none
      | some _ => do
        let ok ← copy_loop w.size
        if ok then Res.ret (some out) else Res.ret none
    | _ => Res.ub
  | pak_change_type.PAK_KEEP =>
    match base with
    | none => Res.ret none
    | some _ =>
      match w.data with
      | write_data.file k => do
        -- line 664: `write->data.file->offset`
        let _ ← readAt p.entries k
        let ok ← copy_loop w.size
        if ok then Res.ret (some out) else Res.ret none
      | _ => Res.ub
  | _ => Res.ret (some out)

/-- Lines 624-688 over the rest of the table: the bytes of the temporary file,
and whether the loop ran to its end (`false`: a `return 0`). -/
def pak_write_payload (p : pak_t) (fs : FS) (base : Option (List Nat)) :
    List pak_write_t → List Nat → Res (Bool × List Nat)
  | [], out => Res.ret (true, out)
  | w :: ws, out => do
    let r ← pak_write_entry p fs base w out
    match r with
    | some out1 => pak_write_payload p fs base ws out1
    | none => Res.ret (false, out)

/-- Lines 445-576: the write table with its offsets, and the offset after the
last entry. -/
def pak_write_table (p : pak_t) (fs : FS) : Res (List pak_write_t × Nat) := do
  -- lines 445-476; the count sizes the block of line 478
  let entry_count ← pak_write_count p p.change_count 0 p.count
  -- lines 489-568
  let kept ← pak_write_keep p fs entry_count p.count 0 []
  let table ← pak_write_add p fs p.change_count 0 kept
  -- lines 570-576
  Res.ret (assign_offsets table ((12 + table.length * 64 % U32) % U32))

/-- Lines 443-708. The result is the returned value, the handle after the
call and the file system after the call. -/
def pak_write (b : Build) (pak : Ptr pak_t) (fs : FS) : Res (Nat × Ptr pak_t × FS) := do
  let p ← pak.deref
  if p.has_change != 0 && p.filepath.isSome && p.file_mode != 0 then do
    let placed ← pak_write_table p fs
    -- lines 578-587: `remove` returns 0 when it deletes the file, and `!0` holds
    if (fsRead fs tmp_pak).isSome then Res.ret (0, pak, fsRemove fs tmp_pak)
    else do
      -- lines 590-621
      let fs1 := fsWrite fs tmp_pak []
      let base ← fopen_existing fs1 p.filepath
      let head := table_bytes b placed.1 placed.2
      -- lines 623-688
      let r ← pak_write_payload p fs1 base placed.1 head
      if r.1 then
        -- line 690: `fclose(base)`
        match base with
        | none => Res.ub
        | some _ =>
          -- lines 691-702; the replacement of the pack by the temporary file is
          -- commented out (lines 699-700)
          Res.ret (1, Ptr.obj { p with changes := [], change_count := 0, has_change := 0 },
                   fsWrite fs1 tmp_pak r.2)
      else Res.ret (0, pak, fsWrite fs1 tmp_pak r.2)
  else Res.ret (0, pak, fs)

/-- Lines 736-764. The result is the returned value and the file system after
the call; the handle is released. -/
def pak_close (b : Build) (pak : Ptr pak_t) (fs : FS) : Res (Nat × FS) :=
  match pak with
  | Ptr.null => Res.ret (0, fs)
  | Ptr.wild _ => Res.ub
  | Ptr.obj p => do
    let fs1 ← (if p.has_change != 0 && p.filepath.isSome && p.file_mode != 0 then do
        let r ← pak_write b pak fs
        Res.ret r.2.2
      else Res.ret fs : Res FS)
    -- lines 747-749: `free(pak->data_ptr)` when it is not null
    match p.data_ptr with
    | Ptr.wild _ => Res.ub
    | _ => Res.ret (1, fs1)

/-! ## Assets and asset maps (`asset.h` lines 110-123, `asset.c` lines 811-989) -/

/-- Lines 110-123 of `asset.h`. A slot of `assets` is null or the address of
an asset in the heap. -/
structure asset_map_t where
  assets : List (Option Nat)
  count : Nat
  capacity : Nat
  uid_counter : Nat
  name : Option (List Nat)
  filename : Option (List Nat)
  pak : Ptr pak_t
deriving DecidableEq, Repr

/-- The asset objects of the program, by address: the map and its callers
hold pointers to the same objects. A block from `malloc` takes the next
address. -/
abbrev Heap := List asset_t

/-- The value that a pointer keeps after its block was passed to `free`: not
null, and designating no object. -/
def freed_block : Ptr (List Nat) := Ptr.wild 1

/-- The call `strcmp(a, b) == 0` on two strings. -/
def str_eq (a b : List Nat) : Bool :=
  a.takeWhile (fun c => c != 0) == b.takeWhile (fun c => c != 0)

/-- Conversion of an `int32_t` to `uint32_t`. -/
def to_uint32 (z : Int) : Nat := (z % (2 ^ 32 : Int)).toNat

/-- Lines 901-957. `fresh` is the content of the block of line 907. The result
is the asset that was filled in, or null. -/
def asset_get (fresh : asset_t) (file : Option (List Nat)) (fs : FS) : Option asset_t :=
  match file with
  | none => none
  | some path =>
    match fsRead fs path with
    | none => none
    | some content =>
      -- lines 916-931: `ftell` into a `uint32_t`, then a read of that many bytes
      let file_size := content.length % U32
      let data := fread_at content 0 file_size
      let data_read := data.length
      if data_read != file_size then none
      else
        -- lines 942-954
        some { fresh with
          data := Ptr.obj (data ++ [0]), data_length := data_read, name := some path,
          filled := 1, req := 0, req_free := 0, chunk := 0, fs := 1 }

/-- Lines 847-853 for slot `i`: the address in the slot when it holds an asset
with a name and data whose name is `file`. -/
def asset_map_slot_hit (map : asset_map_t) (heap : Heap) (file : List Nat) (i : Nat) :
    Res (Option Nat) := do
  let slot ← readAt map.assets i
  match slot with
  | none => Res.ret none
  | some a => do
    let asset ← readAt heap a
    match asset.name with
    | none => Res.ret none
    | some name =>
      if !asset.data.isNull && str_eq file name then Res.ret (some a) else Res.ret none

/-- Lines 846-854, `n` iterations starting at slot `i`. -/
def asset_map_scan (map : asset_map_t) (heap : Heap) (file : List Nat) :
    Nat → Nat → Res (Option Nat)
  | 0, _ => Res.ret none
  | n + 1, i => do
    let hit ← asset_map_slot_hit map heap file i
    match hit with
    | some a => Res.ret (some a)
    | none => asset_map_scan map heap file n (i + 1)

/-- The loops of lines 885-891 and 960-966, `n` iterations starting at slot
`i`: the first slot that holds null. -/
def find_free_slot (assets : List (Option Nat)) : Nat → Nat → Res (Option Nat)
  | 0, _ => Res.ret none
  | n + 1, i => do
    let slot ← readAt assets i
    match slot with
    | none => Res.ret (some i)
    | some _ => find_free_slot assets n (i + 1)

/-- Lines 857-877: the branch of a map with a pack. `fresh` is the content of
the block of line 858. -/
def asset_map_get_pak (fresh : asset_t) (map : asset_map_t) (heap : Heap) (file : List Nat)
    (fs : FS) : Res (Option Nat × asset_map_t × Heap) := do
  -- lines 858-864
  let uid := (map.uid_counter + 1) % U32
  let map1 := { map with uid_counter := uid }
  let asset : asset_t :=
    { fresh with name := some file, uid := uid, req := 0, req_free := 0, fs := 0 }
  -- lines 866-871
  let asset_index ← pak_find map.pak file
  if asset_index == -1 then Res.ret (none, map1, heap)
  else do
    -- lines 874-877: `size` points to `asset->data_length`
    let r ← pak_extract map.pak (to_uint32 asset_index) fs
    let asset1 : asset_t :=
      { asset with data := r.1, data_length := r.2.getD asset.data_length, filled := 1 }
    Res.ret (some heap.length, map1, heap ++ [asset1])

/-- Lines 878-895: the branch of a map without a pack. Line 881 stores through
the result of `asset_get` before line 883 tests it. -/
def asset_map_get_fs (fresh : asset_t) (map : asset_map_t) (heap : Heap) (file : List Nat)
    (fs : FS) : Res (Option Nat × asset_map_t × Heap) := do
  let asset ← nonNull (asset_get fresh (some file) fs)
  let uid := (map.uid_counter + 1) % U32
  let map1 := { map with uid_counter := uid }
  let asset1 : asset_t := { asset with uid := uid }
  -- lines 885-891
  let slot ← find_free_slot map.assets map.capacity 0
  match slot with
  | some i =>
    Res.ret (some heap.length,
      { map1 with assets := map.assets.set i (some heap.length), count := (map.count + 1) % U32 },
      heap ++ [asset1])
  | none => Res.ret (some heap.length, map1, heap ++ [{ asset1 with filled := 1 }])

/-- Lines 843-898. The result is the returned pointer (an address in the heap,
or null), the map and the heap after the call. -/
def asset_map_get (fresh : asset_t) (map : asset_map_t) (heap : Heap) (file : List Nat)
    (fs : FS) : Res (Option Nat × asset_map_t × Heap) := do
  -- lines 845-855: the slots are scanned only when `count > 0`
  let hit ← (if map.count > 0 then asset_map_scan map heap file map.capacity 0
    else Res.ret none : Res (Option Nat))
  match hit with
  | some a => Res.ret (some a, map, heap)
  | none =>
    if !map.pak.isNull then asset_map_get_pak fresh map heap file fs
    else asset_map_get_fs fresh map heap file fs

/-- Lines 959-967. `count` is not assigned. -/
def asset_map_add (map : asset_map_t) (heap : Heap) (asset : Option Nat) :
    Res (asset_map_t × Heap) := do
  let slot ← find_free_slot map.assets map.capacity 0
  match slot with
  | none => Res.ret (map, heap)
  | some i => do
    let a ← nonNull asset
    let target ← readAt heap a
    Res.ret ({ map with assets := map.assets.set i (some a) }, heap.set a { target with uid := i })

/-- Lines 973-981. `id` indexes the slots; the slot keeps its pointer. -/
def asset_map_removei (map : asset_map_t) (heap : Heap) (id : Nat) :
    Res (asset_map_t × Heap) := do
  let slot ← readAt map.assets id
  match slot with
  | none => Res.ret (map, heap)
  | some a => do
    let target ← readAt heap a
    -- line 979: `free(map->assets[id]->data)`
    match target.data with
    | Ptr.wild _ => Res.ub
    | Ptr.null => Res.ret (map, heap.set a { target with uid := 0 })
    | Ptr.obj _ => Res.ret (map, heap.set a { target with data := freed_block, uid := 0 })

/-- Lines 969-971. -/
def asset_map_remove (map : asset_map_t) (heap : Heap) (asset : Option Nat) :
    Res (asset_map_t × Heap) := do
  let a ← nonNull asset
  let target ← readAt heap a
  asset_map_removei map heap target.uid

/-- Line 985 for slot `i`: whether the asset of the slot is filled and marked
for release. The slot is dereferenced without a test. -/
def asset_map_update_test (map : asset_map_t) (heap : Heap) (i : Nat) : Res Bool := do
  let slot ← readAt map.assets i
  let a ← nonNull slot
  let target ← readAt heap a
  Res.ret (target.filled != 0 && target.req_free != 0)

/-- Lines 983-989, `n` iterations starting at slot `i`. -/
def asset_map_update_loop (map : asset_map_t) : Nat → Nat → Heap → Res (asset_map_t × Heap)
  | 0, _, heap => Res.ret (map, heap)
  | n + 1, i, heap => do
    let go ← asset_map_update_test map heap i
    if go then do
      let r ← asset_map_removei map heap i
      asset_map_update_loop map n (i + 1) r.2
    else asset_map_update_loop map n (i + 1) heap

/-- Lines 983-989. -/
def asset_map_update (map : asset_map_t) (heap : Heap) : Res (asset_map_t × Heap) :=
  asset_map_update_loop map map.capacity 0 heap

/-! ## Chunks and writes of assets (`asset.c` lines 710-732 and 991-1083) -/

/-- Lines 991-1062. `fresh` is the content of the block of line 998. Line 1009
rewinds the stream and nothing moves it to `chunk_start`, so line 1037 reads
from the start of the file. `fs` is not assigned. -/
def asset_get_chunk (fresh : asset_t) (file : Option (List Nat)) (chunk_start chunk_length : Nat)
    (fs : FS) : Option asset_t :=
  match file with
  | none => none
  | some path =>
    match fsRead fs path with
    | none => none
    | some content =>
      let file_size := content.length % U32
      if chunk_start > file_size then none
      else
        -- lines 1022-1024: the sum is a `uint32_t`
        let max_length :=
          if (chunk_start + chunk_length) % U32 > file_size then file_size - chunk_start
          else chunk_length
        let data := fread_at content 0 max_length
        let data_read := data.length
        if data_read != max_length then none
        else
          -- lines 1047-1059
          some { fresh with
            data_length := data_read, data := Ptr.obj (data ++ [0]), name := some path,
            filled := 1, chunk := 1, chunk_start := to_int32 chunk_start, req := 0,
            req_free := 0 }

/-- Line 1072: the call `fwrite(data, data_length, 1, f)` on a new file at
`path`. The result is the number of items written, 1 or 0, and the file system
after the call; an item of zero bytes writes nothing and counts 0. -/
def fwrite_item (fs : FS) (path : List Nat) (data : Ptr (List Nat)) (data_length : Nat) :
    Res (Nat × FS) :=
  if data_length == 0 then Res.ret (0, fs)
  else do
    let d ← data.deref
    if data_length ≤ d.length then Res.ret (1, fsWrite fs path (d.take data_length))
    else Res.ub

/-- Lines 1064-1083. The result is the returned value and the file system
after the call. -/
def asset_write (file_path : Option (List Nat)) (data : Ptr (List Nat)) (data_length : Nat)
    (fs : FS) : Res (Nat × FS) :=
  match file_path with
  | none => Res.ub
  | some path => do
    -- line 1066: mode `"wb"` creates or truncates
    let w ← fwrite_item (fsWrite fs path []) path data data_length
    -- line 1075: the count of items against the count of bytes
    if w.1 != data_length then Res.ret (0, w.2) else Res.ret (1, w.2)

/-- Lines 713-725 for slot `i`: whether the loop goes on (`false`: the
`return 0` of line 722) and the pack after the slot. -/
def asset_map_write_slot (map : asset_map_t) (heap : Heap) (pak : Ptr pak_t) (i : Nat) :
    Res (Bool × Ptr pak_t) := do
  let slot ← readAt map.assets i
  match slot with
  | none => Res.ret (true, pak)
  | some a => do
    let asset ← readAt heap a
    match asset.name with
    | none => Res.ret (true, pak)
    | some name => do
      let id ← pak_find pak name
      -- line 719: `!id` holds for the index 0
      if id == 0 then do
        let r ← pak_add_mem pak (some name) asset.data asset.data_length
        if r.1 == 0 then Res.ret (false, r.2) else Res.ret (true, r.2)
      else Res.ret (true, pak)

/-- Lines 712-726, `n` iterations starting at slot `i`. -/
def asset_map_write_loop (map : asset_map_t) (heap : Heap) :
    Nat → Nat → Ptr pak_t → Res (Bool × Ptr pak_t)
  | 0, _, pak => Res.ret (true, pak)
  | n + 1, i, pak => do
    let r ← asset_map_write_slot map heap pak i
    if r.1 then asset_map_write_loop map heap n (i + 1) r.2 else Res.ret (false, r.2)

/-- Lines 710-732. The loop runs over the first `count` slots. The result is
the returned value, the map (with its pack) and the file system after the
call. -/
def asset_map_write (b : Build) (map : asset_map_t) (heap : Heap) (fs : FS) :
    Res (Nat × asset_map_t × FS) :=
  if !map.pak.isNull then do
    let r ← asset_map_write_loop map heap map.count 0 map.pak
    if r.1 then do
      let w ← pak_write b r.2 fs
      Res.ret (w.1, { map with pak := w.2.1 }, w.2.2)
    else Res.ret (0, { map with pak := r.2 }, fs)
  else Res.ret (0, map, fs)

/-! ## Concrete inputs -/

/-- A build in which `ltoh32` is the identity on a little-endian host. -/
def build_msvc : Build := { msvcX86 := true, bigEndian := false }

/-- A 56-byte name field: the string, then zero bytes. -/
def name_field (s : String) : List Nat := cstr s ++ List.replicate (56 - s.length) 0

/-- The path `"game.pak"`. -/
def game_pak : List Nat := cstr "game.pak"

/-- A well-formed pack with the single entry `a.txt` holding `hello`:
81 bytes, the payload at offset 76. -/
def pack_image : List Nat :=
  PACK ++ le32_bytes 1 ++ le32_bytes 81 ++
    (name_field "a.txt" ++ le32_bytes 76 ++ le32_bytes 5) ++ cstr "hello"

/-- A well-formed pack with no entry: the 12-byte header. -/
def empty_pack_image : List Nat := PACK ++ le32_bytes 0 ++ le32_bytes 12

/-- A well-formed pack with the single entry `a.txt` whose payload has 756 bytes,
so that the buffer reaches byte 832. -/
def long_pack_image : List Nat :=
  PACK ++ le32_bytes 1 ++ le32_bytes 832 ++
    (name_field "a.txt" ++ le32_bytes 76 ++ le32_bytes 756) ++ List.replicate 756 7

/-- Twelve bytes that do not start with the signature. -/
def junk_image : List Nat := cstr "JUNK" ++ List.replicate 8 0

/-- The handle that `pak_open_file` returns for a path that did not exist. -/
def fresh_handle : pak_t := { pak_zero with file_mode := 1, filepath := some game_pak }

/-- The handle `fresh_handle` after `pak_add_mem` of `a.txt`. -/
def added_handle : pak_t :=
  { fresh_handle with
    changes := [{ file := none, filename := some (cstr "a.txt"),
                  data := change_data.asset
                    { asset_zero with data := Ptr.obj (cstr "hello"), data_length := 5 },
                  type := pak_change_type.PAK_ADD_MEM }],
    change_count := 1 }

/-- A file-mode handle on `game.pak` whose table is the single entry `a.txt`
of `pack_image`. -/
def one_entry_handle : pak_t :=
  { pak_zero with
    file_mode := 1, filepath := some game_pak, count := 1, file_size := 81,
    entries := [{ name := name_field "a.txt", offset := 76, size := 5 }] }

/-- The handle `one_entry_handle` made dirty, with a change log of one element
that holds the change which `pak_remove` builds for index 0. The handle is
given as a value; no call of `pak_remove` returns it. -/
def removed_handle : pak_t :=
  { one_entry_handle with changes := [pak_remove_change 0], change_count := 1, has_change := 1 }

/-- A dirty file-mode handle with two empty entries and an empty change log. -/
def two_entry_handle : pak_t :=
  { pak_zero with
    file_mode := 1, filepath := some game_pak, has_change := 1, count := 2,
    entries := [{ name := name_field "a", offset := 140, size := 0 },
                { name := name_field "b", offset := 140, size := 0 }] }

/-- The handle `two_entry_handle` after a write that returns 1. -/
def two_entry_clean : pak_t := { two_entry_handle with has_change := 0 }

/-- The temporary file of the write of `two_entry_handle`: header and two
records, both placed at offset 140. -/
def two_entry_image : List Nat :=
  PACK ++ le32_bytes 2 ++ le32_bytes 140 ++
    (name_field "a" ++ le32_bytes 140 ++ le32_bytes 0) ++
    (name_field "b" ++ le32_bytes 140 ++ le32_bytes 0)

/-- The handle that `pak_open_mem` fills in for `long_pack_image`: its table
is what lies at byte 768 of the buffer, and its count is zero. -/
def long_pack_view : pak_t :=
  { pak_zero with
    entries := [{ name := List.replicate 56 7, offset := 117901063, size := 117901063 }] }

/-- A build for a little-endian host on which neither `_M_IX86` nor `_M_X64`
is defined (gcc or clang on x86-64 or ARM). -/
def build_gcc : Build := { msvcX86 := false, bigEndian := false }

/-- The handle `fresh_handle` after `pak_add_file` of `a.txt`. -/
def file_added_handle : pak_t :=
  { fresh_handle with
    changes := [{ file := none, filename := some (cstr "a.txt"),
                  data := change_data.filepath (some (cstr "a.txt")),
                  type := pak_change_type.PAK_ADD_FILE }],
    change_count := 1 }

/-- A memory-mode handle over `pack_image` with the table of that pack. -/
def mem_handle : pak_t :=
  { pak_zero with
    data_ptr := Ptr.obj pack_image, data_size := 81, count := 1, file_size := 81,
    entries := [{ name := name_field "a.txt", offset := 76, size := 5 }] }

/-- The temporary file of the write of `two_entry_handle` under `build_gcc`:
every 32-bit field has its most significant byte first. -/
def two_entry_image_swapped : List Nat :=
  PACK ++ [0, 0, 0, 2] ++ [0, 0, 0, 140] ++
    (name_field "a" ++ [0, 0, 0, 140] ++ [0, 0, 0, 0]) ++
    (name_field "b" ++ [0, 0, 0, 140] ++ [0, 0, 0, 0])

/-- A file that does not start with the signature and declares one entry,
little-endian, followed by the record of `a.txt` and its payload. -/
def junk_one_image : List Nat :=
  cstr "JUNK" ++ le32_bytes 1 ++ le32_bytes 81 ++
    (name_field "a.txt" ++ le32_bytes 76 ++ le32_bytes 5) ++ cstr "hello"

/-- The dirty handle `two_entry_handle` on a pack whose own path is
`tmp.pak`. -/
def tmp_two_entry_handle : pak_t := { two_entry_handle with filepath := some tmp_pak }

/-- A dirty file-mode handle with an empty change log whose two entries have
5 and 7 bytes. -/
def sized_handle : pak_t :=
  { pak_zero with
    file_mode := 1, filepath := some game_pak, has_change := 1, count := 2,
    entries := [{ name := name_field "a", offset := 140, size := 5 },
                { name := name_field "b", offset := 145, size := 7 }] }

/-- The write table of `sized_handle`: the record of 5 bytes at offset 140,
the record of 7 bytes at offset 145. -/
def sized_table : List pak_write_t :=
  [{ name := name_field "a", offset := 140, size := 5, data := write_data.file 0,
     type := pak_change_type.PAK_KEEP },
   { name := name_field "b", offset := 145, size := 7, data := write_data.file 1,
     type := pak_change_type.PAK_KEEP }]

/-- The write table of `two_entry_handle`: two records of no bytes at offset
140. -/
def two_entry_table : List pak_write_t :=
  [{ name := name_field "a", offset := 140, size := 0, data := write_data.file 0,
     type := pak_change_type.PAK_KEEP },
   { name := name_field "b", offset := 140, size := 0, data := write_data.file 1,
     type := pak_change_type.PAK_KEEP }]

/-- The file `pack_image` cut after two of the five payload bytes. -/
def truncated_image : List Nat := pack_image.take 78

/-- An entry named `a`. -/
def entry_a : pak_file_t := { name := name_field "a", offset := 0, size := 0 }

/-- An entry named `b`. -/
def entry_b : pak_file_t := { name := name_field "b", offset := 0, size := 0 }

/-- A handle whose table holds `2 ^ 31` entries named `a` and then one entry
named `b`, at index `2 ^ 31`. -/
def huge_handle : pak_t :=
  { pak_zero with
    file_mode := 1, count := 2147483648 + 1,
    entries := List.replicate 2147483648 entry_a ++ [entry_b] }

/-- A map as created: two empty slots, no pack, counters at zero. -/
def empty_map : asset_map_t :=
  { assets := [none, none], count := 0, capacity := 2, uid_counter := 0, name := none,
    filename := none, pak := Ptr.null }

/-- An asset of the caller: the bytes `hello` under the name `a.txt`. -/
def hello_asset : asset_t :=
  { asset_zero with
    data := Ptr.obj (cstr "hello"), data_length := 5, name := some (cstr "a.txt"), filled := 1 }

/-- The map `empty_map` after `asset_map_add` of the asset at address 0. -/
def tracking_map : asset_map_t := { empty_map with assets := [some 0, none] }

/-- The asset that `asset_get` builds for a file `a.txt` holding `HI`, with
the id 1. -/
def loaded_asset : asset_t :=
  { asset_zero with
    uid := 1, data := Ptr.obj (cstr "HI" ++ [0]), data_length := 2, name := some (cstr "a.txt"),
    filled := 1, fs := 1 }

/-- The asset that `asset_get` builds for a file `x.txt` holding two bytes,
with the id 1. -/
def x_asset : asset_t :=
  { asset_zero with
    uid := 1, data := Ptr.obj [1, 2, 0], data_length := 2, name := some (cstr "x.txt"),
    filled := 1, fs := 1 }

/-- The map `empty_map` backed by the pack of `one_entry_handle`. -/
def pack_map : asset_map_t := { empty_map with pak := Ptr.obj one_entry_handle }

/-- A file of 100 bytes, byte `i` holding the value `i`. -/
def hundred_bytes : List Nat := List.range 100

/-- The path `"a.bin"`. -/
def a_bin : List Nat := cstr "a.bin"

/-- The map `empty_map` after `asset_map_get` of the file `a.txt`: the asset at
address 0 in slot 0. -/
def one_tracked_map : asset_map_t :=
  { empty_map with assets := [some 0, none], count := 1, uid_counter := 1 }

/-- The map `one_tracked_map` after `asset_map_get` of the file `x.txt`: the
asset at address 1 in slot 1. -/
def two_tracked_map : asset_map_t :=
  { empty_map with assets := [some 0, some 1], count := 2, uid_counter := 2 }

/-- The asset that `asset_get` builds for a file `x.txt` holding two bytes,
with the id 2. -/
def x_asset_two : asset_t := { x_asset with uid := 2 }

/-- A dirty handle on a new pack, given as a value: its change log of one
element holds a removal. -/
def fresh_removed : pak_t :=
  { fresh_handle with changes := [pak_remove_change 0], change_count := 1, has_change := 1 }

/-- A dirty handle on a new pack, given as a value: its change log of two
elements holds a removal and then the addition of the five bytes `hello` under
the name `x`. -/
def remove_add_handle : pak_t :=
  { fresh_removed with
    changes := fresh_removed.changes ++
      [{ file := none, filename := some (cstr "x"),
         data := change_data.asset
           { asset_zero with data := Ptr.obj (cstr "hello"), data_length := 5 },
         type := pak_change_type.PAK_ADD_MEM }],
    change_count := 2 }

/-- An asset of the caller: the bytes `world` under the name `b.txt`. -/
def world_asset : asset_t :=
  { asset_zero with
    data := Ptr.obj (cstr "world"), data_length := 5, name := some (cstr "b.txt"), filled := 1 }

/-- A map backed by the pack of `one_entry_handle`, whose two slots hold the
assets at addresses 0 and 1. -/
def write_map : asset_map_t :=
  { empty_map with assets := [some 0, some 1], count := 2, pak := Ptr.obj one_entry_handle }

/-- The handle `one_entry_handle` after `pak_add_mem` of `hello` under the
name `a.txt`. -/
def one_entry_added : pak_t :=
  { one_entry_handle with
    changes := [{ file := none, filename := some (cstr "a.txt"),
                  data := change_data.asset
                    { asset_zero with data := Ptr.obj (cstr "hello"), data_length := 5 },
                  type := pak_change_type.PAK_ADD_MEM }],
    change_count := 1 }

/-! ## Lemmas -/

@[simp] theorem Res.ub_bind {α β : Type} (f : α → Res β) : (Res.ub >>= f) = Res.ub := rfl

@[simp] theorem Res.ret_bind {α β : Type} (a : α) (f : α → Res β) : (Res.ret a >>= f) = f a := rfl

theorem Res.bind_eq_ret {α β : Type} (x : Res α) (f : α → Res β) (y : β) :
    (x >>= f) = Res.ret y ↔ ∃ a, x = Res.ret a ∧ f a = Res.ret y := by
  cases x with
  | ub => simp
  | ret a => simp

theorem fsRead_fsWrite (fs : FS) (path content : List Nat) :
    fsRead (fsWrite fs path content) path = some content := by
  simp [fsRead, fsWrite, List.find?]

theorem assign_offsets_length (t : List pak_write_t) (s : Nat) :
    (assign_offsets t s).1.length = t.length := by
  induction t generalizing s with
  | nil => rfl
  | cons w ws ih => simp [assign_offsets, ih]

theorem assign_offsets_head (t : List pak_write_t) (s : Nat) (r : pak_write_t)
    (h : (assign_offsets t s).1[0]? = some r) : r.offset = s := by
  cases t with
  | nil => simp [assign_offsets] at h
  | cons w ws =>
    simp [assign_offsets] at h
    subst h
    rfl

theorem assign_offsets_step (t : List pak_write_t) (s i : Nat) (r r' : pak_write_t)
    (h : (assign_offsets t s).1[i]? = some r)
    (h' : (assign_offsets t s).1[i + 1]? = some r') :
    r'.offset = (r.offset + r.size) % U32 := by
  induction t generalizing s i with
  | nil => simp [assign_offsets] at h
  | cons w ws ih =>
    cases i with
    | zero =>
      simp [assign_offsets] at h h'
      subst h
      have := assign_offsets_head ws ((s + w.size) % U32) r' h'
      simpa using this
    | succ j =>
      simp [assign_offsets] at h h'
      exact ih _ j h h'

theorem assign_offsets_total (t : List pak_write_t) (s : Nat) (r : pak_write_t)
    (h : (assign_offsets t s).1.getLast? = some r) :
    (assign_offsets t s).2 = (r.offset + r.size) % U32 := by
  induction t generalizing s with
  | nil => simp [assign_offsets] at h
  | cons w ws ih =>
    cases ws with
    | nil =>
      simp [assign_offsets] at h
      subst h
      simp [assign_offsets]
    | cons w' ws' =>
      have h2 := ih ((s + w.size) % U32)
      simp only [assign_offsets] at h h2 ⊢
      rw [List.getLast?_cons_cons] at h
      exact h2 h

theorem pak_write_entry_extends (p : pak_t) (fs : FS) (base : Option (List Nat))
    (w : pak_write_t) (out out1 : List Nat)
    (h : pak_write_entry p fs base w out = Res.ret (some out1)) : ∃ extra, out1 = out ++ extra := by
  unfold pak_write_entry at h
  split at h
  · split at h
    · split at h
      · cases h
        exact ⟨[], by simp⟩
      · rw [Res.bind_eq_ret] at h
        obtain ⟨d, _, h⟩ := h
        split at h
        · cases h
          exact ⟨_, rfl⟩
        · cases h
    · cases h
  · split at h
    · rw [Res.bind_eq_ret] at h
      obtain ⟨f, _, h⟩ := h
      split at h
      · cases h
      · rw [Res.bind_eq_ret] at h
        obtain ⟨ok, _, h⟩ := h
        split at h
        · cases h
          exact ⟨[], by simp⟩
        · cases h
    · cases h
  · split at h
    · cases h
    · split at h
      · rw [Res.bind_eq_ret] at h
        obtain ⟨_, _, h⟩ := h
        rw [Res.bind_eq_ret] at h
        obtain ⟨ok, _, h⟩ := h
        split at h
        · cases h
          exact ⟨[], by simp⟩
        · cases h
      · cases h
  · cases h
    exact ⟨[], by simp⟩

theorem pak_write_payload_extends (p : pak_t) (fs : FS) (base : Option (List Nat))
    (ws : List pak_write_t) (out : List Nat) (r : Bool × List Nat)
    (h : pak_write_payload p fs base ws out = Res.ret r) : ∃ extra, r.2 = out ++ extra := by
  induction ws generalizing out with
  | nil =>
    simp [pak_write_payload] at h
    subst h
    exact ⟨[], by simp⟩
  | cons w ws ih =>
    unfold pak_write_payload at h
    rw [Res.bind_eq_ret] at h
    obtain ⟨o, ho, h⟩ := h
    cases o with
    | none =>
      cases h
      exact ⟨[], by simp⟩
    | some out1 =>
      obtain ⟨e1, he1⟩ := pak_write_entry_extends p fs base w out out1 ho
      obtain ⟨e2, he2⟩ := ih out1 h
      exact ⟨e1 ++ e2, by rw [he2, he1]; simp⟩

theorem pak_write_table_shape (p : pak_t) (fs : FS) (placed : List pak_write_t × Nat)
    (h : pak_write_table p fs = Res.ret placed) :
    ∃ table, placed = assign_offsets table ((12 + table.length * 64 % U32) % U32) := by
  unfold pak_write_table at h
  rw [Res.bind_eq_ret] at h
  obtain ⟨_, _, h⟩ := h
  rw [Res.bind_eq_ret] at h
  obtain ⟨kept, _, h⟩ := h
  rw [Res.bind_eq_ret] at h
  obtain ⟨table, _, h⟩ := h
  cases h
  exact ⟨table, rfl⟩

theorem fsRead_cons (e : List Nat × List Nat) (es : FS) (p : List Nat) :
    fsRead (e :: es) p = if e.1 = p then some e.2 else fsRead es p := by
  by_cases h : e.1 = p
  · have hb : (e.1 == p) = true := by simp [h]
    simp [fsRead, List.find?, hb, h]
  · have hb : (e.1 == p) = false := by simp [h]
    simp [fsRead, List.find?, hb, h]

theorem fsRemove_cons (e : List Nat × List Nat) (es : FS) (q : List Nat) :
    fsRemove (e :: es) q = if e.1 = q then fsRemove es q else e :: fsRemove es q := by
  by_cases h : e.1 = q
  · have hb : (e.1 != q) = false := by simp [h]
    simp [fsRemove, List.filter, hb, h]
  · have hb : (e.1 != q) = true := by simp [h]
    simp [fsRemove, List.filter, hb, h]

theorem fsRead_fsRemove_ne (fs : FS) (p q : List Nat) (h : p ≠ q) :
    fsRead (fsRemove fs q) p = fsRead fs p := by
  induction fs with
  | nil => rfl
  | cons e es ih =>
    rw [fsRemove_cons, fsRead_cons]
    by_cases h1 : e.1 = q
    · have h2 : ¬ e.1 = p := fun h3 => h (h3.symm.trans h1)
      rw [if_pos h1, if_neg h2, ih]
    · rw [if_neg h1, fsRead_cons, ih]

theorem fsRead_fsWrite_ne (fs : FS) (p q content : List Nat) (h : p ≠ q) :
    fsRead (fsWrite fs q content) p = fsRead fs p := by
  have h1 : ¬ q = p := fun h2 => h h2.symm
  unfold fsWrite
  rw [fsRead_cons, if_neg h1, fsRead_fsRemove_ne fs p q h]

theorem readAt_eq {α : Type} (xs : List α) (i : Nat) (a : α) (h : xs[i]? = some a) :
    readAt xs i = Res.ret a := by
  simp [readAt, h]

theorem readAt_replicate {α : Type} (n i : Nat) (a : α) (h : i < n) :
    readAt (List.replicate n a) i = Res.ret a := by
  apply readAt_eq
  rw [List.getElem?_replicate]
  simp [h]

theorem pak_find_loop_skip (e : pak_file_t) (rest : List pak_file_t) (name : List Nat)
    (m n : Nat) (h : strcmp_eq e.name name = Res.ret false) :
    ∀ k i, i + k = m →
      pak_find_loop (List.replicate m e ++ rest) name (k + n) i =
        pak_find_loop (List.replicate m e ++ rest) name n m := by
  intro k
  induction k with
  | zero =>
    intro i hi
    have : i = m := by omega
    subst this
    simp
  | succ k ih =>
    intro i hi
    have hlt : i < m := by omega
    have hread : readAt (List.replicate m e ++ rest) i = Res.ret e := by
      apply readAt_eq
      rw [List.getElem?_append_left (by simpa using hlt), List.getElem?_replicate]
      simp [hlt]
    have hk : k + 1 + n = (k + n) + 1 := by omega
    rw [hk, pak_find_loop, hread]
    simp only [Res.ret_bind, h]
    exact ih (i + 1) (by omega)

theorem pak_find_loop_spec (entries : List pak_file_t) (name : List Nat) :
    ∀ (n i : Nat), i + n ≤ entries.length → i + n ≤ 2 ^ 31 →
      (∀ j e, i ≤ j → j < i + n → entries[j]? = some e → 0 ∈ e.name) →
      (pak_find_loop entries name n i = Res.ret (-1) ∧
        ∀ j e, i ≤ j → j < i + n → entries[j]? = some e →
          strcmp_eq e.name name = Res.ret false) ∨
      (∃ k e, i ≤ k ∧ k < i + n ∧ pak_find_loop entries name n i = Res.ret (Int.ofNat k) ∧
        entries[k]? = some e ∧ strcmp_eq e.name name = Res.ret true ∧
        ∀ j e1, i ≤ j → j < k → entries[j]? = some e1 →
          strcmp_eq e1.name name = Res.ret false) := by
  intro n
  induction n with
  | zero =>
    intro i _ _ _
    left
    refine ⟨rfl, ?_⟩
    intro j e h1 h2
    omega
  | succ n ih =>
    intro i hlen hbound hterm
    have hi : i < entries.length := by omega
    obtain ⟨e, he⟩ : ∃ e, entries[i]? = some e := ⟨entries[i], by simp [hi]⟩
    have hread := readAt_eq entries i e he
    have hmem : 0 ∈ e.name := hterm i e (Nat.le_refl i) (by omega) he
    have hcmp : strcmp_eq e.name name =
        Res.ret (e.name.takeWhile (fun c => c != 0) == name.takeWhile (fun c => c != 0)) := by
      simp [strcmp_eq, c_str, hmem]
    rw [pak_find_loop, hread]
    simp only [Res.ret_bind, hcmp]
    by_cases hm : (e.name.takeWhile (fun c => c != 0) == name.takeWhile (fun c => c != 0)) = true
    · right
      refine ⟨i, e, Nat.le_refl i, by omega, ?_, he, ?_, ?_⟩
      · have h31 : i % U32 < 2 ^ 31 := by
          have : i < 2 ^ 31 := by omega
          have : i % U32 = i := Nat.mod_eq_of_lt (by unfold U32; omega)
          omega
        have hmod : i % U32 = i := Nat.mod_eq_of_lt (by unfold U32; omega)
        have hlt : ¬ 2147483648 ≤ i := by omega
        simp [hm, to_int32, hmod, hlt]
      · rw [hcmp, hm]
      · intro j e1 h1 h2
        omega
    · have hf : (e.name.takeWhile (fun c => c != 0) == name.takeWhile (fun c => c != 0)) = false := by
        simpa using hm
      simp only [hf]
      have hrest := ih (i + 1) (by omega) (by omega)
        (fun j e1 h1 h2 h3 => hterm j e1 (by omega) (by omega) h3)
      have hstep : ∀ j e1, i ≤ j → j < i + 1 → entries[j]? = some e1 →
          strcmp_eq e1.name name = Res.ret false := by
        intro j e1 h1 h2 h3
        have : j = i := by omega
        subst this
        rw [he] at h3
        cases h3
        rw [hcmp, hf]
      rcases hrest with ⟨h1, h2⟩ | ⟨k, ek, h1, h2, h3, h4, h5, h6⟩
      · left
        refine ⟨by simpa using h1, ?_⟩
        intro j e1 hj1 hj2 hj3
        by_cases hji : j = i
        · exact hstep j e1 hj1 (by omega) hj3
        · exact h2 j e1 (by omega) (by omega) hj3
      · right
        refine ⟨k, ek, by omega, by omega, by simpa using h3, h4, h5, ?_⟩
        intro j e1 hj1 hj2 hj3
        by_cases hji : j = i
        · exact hstep j e1 hj1 (by omega) hj3
        · exact h6 j e1 (by omega) hj2 hj3

theorem getElem?_replicate_append (m : Nat) (a b : pak_file_t) :
    (List.replicate m a ++ [b])[m]? = some b := by
  rw [List.getElem?_append_right (by simp)]
  simp

theorem pak_find_loop_last (a b : pak_file_t) (name : List Nat) (m : Nat)
    (ha : strcmp_eq a.name name = Res.ret false) (hb : strcmp_eq b.name name = Res.ret true) :
    pak_find_loop (List.replicate m a ++ [b]) name (m + 1) 0 = Res.ret (to_int32 m) := by
  rw [pak_find_loop_skip a [b] name m 1 ha m 0 (by omega), pak_find_loop,
    readAt_eq _ _ _ (getElem?_replicate_append m a b)]
  simp only [Res.ret_bind, hb]
  rfl

theorem asset_map_scan_empty (map : asset_map_t) (heap : Heap) (file : List Nat)
    (h : map.assets = List.replicate map.capacity none) :
    ∀ n i, i + n ≤ map.capacity → asset_map_scan map heap file n i = Res.ret none := by
  intro n
  induction n with
  | zero =>
    intro i _
    rfl
  | succ n ih =>
    intro i hi
    have hread : readAt map.assets i = Res.ret none := by
      rw [h]
      exact readAt_replicate map.capacity i none (by omega)
    rw [asset_map_scan, asset_map_slot_hit, hread]
    simp only [Res.ret_bind]
    exact ih (i + 1) (by omega)

/-- The loop of lines 537-568 never extends the write table: it ends at the
`break` of line 553 or has no defined result. -/
theorem pak_write_add_keeps_table (p : pak_t) (fs : FS) (n i : Nat) (writes t : List pak_write_t)
    (h : pak_write_add p fs n i writes = Res.ret t) : t = writes := by
  induction n generalizing i with
  | zero =>
    unfold pak_write_add at h
    cases h
    rfl
  | succ n ih =>
    unfold pak_write_add at h
    rw [Res.bind_eq_ret] at h
    obtain ⟨change, _, h⟩ := h
    rw [Res.bind_eq_ret] at h
    obtain ⟨r, _, h⟩ := h
    split at h
    · cases h
      rfl
    · split at h
      · cases h
      · exact ih (i + 1) h

/-- When `chunk_start + chunk_length` does not wrap, `asset_get_chunk` returns
an asset whose length is the clamped one and whose bytes are the first bytes of
the file. -/
theorem asset_get_chunk_reads_file_start (fresh : asset_t) (path c : List Nat) (fs : FS)
    (chunk_start chunk_length : Nat) (h : fsRead fs path = some c) (hL : c.length < U32)
    (hs : chunk_start ≤ c.length) (hsum : chunk_start + chunk_length < U32) :
    ∃ a, asset_get_chunk fresh (some path) chunk_start chunk_length fs = some a ∧
      a.data_length = min chunk_length (c.length - chunk_start) ∧
      a.data = Ptr.obj (c.take (min chunk_length (c.length - chunk_start)) ++ [0]) ∧
      a.chunk = 1 := by
  have hm : c.length % U32 = c.length := Nat.mod_eq_of_lt hL
  have hm2 : (chunk_start + chunk_length) % U32 = chunk_start + chunk_length :=
    Nat.mod_eq_of_lt hsum
  have hns : ¬ chunk_start > c.length := by omega
  unfold asset_get_chunk
  simp only [h, hm, hm2, hns, if_false, fread_at, List.drop_zero, List.length_take]
  by_cases hgt : chunk_start + chunk_length > c.length
  · have e1 : min chunk_length (c.length - chunk_start) = c.length - chunk_start := by omega
    have e2 : min (c.length - chunk_start) c.length = c.length - chunk_start := by omega
    simp [hgt, e1, e2]
  · have e1 : min chunk_length (c.length - chunk_start) = chunk_length := by omega
    have e2 : min chunk_length c.length = chunk_length := by omega
    simp [hgt, e1, e2]

/-! ## Claims -/

/-- C1 (round trip), at one blob. A pack opened on a path that does not exist
receives `a.txt` through `pak_add_mem`, which returns 1 and leaves `has_change`
at 0; `pak_close` therefore writes nothing and the file stays empty; the pack
opened again has count 0 and `pak_find` of `a.txt` is -1. -/
theorem C1_round_trip_loses_blob (b : Build) :
    pak_open_file b pak_zero game_pak [] = Res.ret (Ptr.obj fresh_handle, [(game_pak, [])]) ∧
    pak_add_mem (Ptr.obj fresh_handle) (some (cstr "a.txt")) (Ptr.obj (cstr "hello")) 5 =
      Res.ret (1, Ptr.obj added_handle) ∧
    added_handle.has_change = 0 ∧
    pak_write b (Ptr.obj added_handle) [(game_pak, [])] =
      Res.ret (0, Ptr.obj added_handle, [(game_pak, [])]) ∧
    pak_close b (Ptr.obj added_handle) [(game_pak, [])] = Res.ret (1, [(game_pak, [])]) ∧
    pak_open_file b pak_zero game_pak [(game_pak, [])] =
      Res.ret (Ptr.obj fresh_handle, [(game_pak, [])]) ∧
    pak_count (Ptr.obj fresh_handle) = Res.ret 0 ∧
    pak_find (Ptr.obj fresh_handle) (cstr "a.txt") = Res.ret (-1) := by
  rcases b with ⟨_ | _, _ | _⟩ <;> refine ⟨?_, ?_, ?_, ?_, ?_, ?_, ?_, ?_⟩ <;> decide

/-- C2 (remove then find). On a handle whose table is the single entry
`a.txt`, found at index 0, `pak_remove` of index 0 has no defined result: line
228 stores the change outside the four-byte block of line 221. On the same
handle with a change log that holds that removal, `pak_write` has no defined
result either: line 499 passes the null `filename` of the removal to
`strcmp`. -/
theorem C2_remove_overruns_change_log (b : Build) :
    pak_find (Ptr.obj one_entry_handle) (cstr "a.txt") = Res.ret 0 ∧
    pak_count (Ptr.obj one_entry_handle) = Res.ret 1 ∧
    pak_remove (Ptr.obj one_entry_handle) 0 = Res.ub ∧
    removed_handle.changes = [pak_remove_change 0] ∧
    pak_write b (Ptr.obj removed_handle) [(game_pak, pack_image)] = Res.ub := by
  rcases b with ⟨_ | _, _ | _⟩ <;> refine ⟨?_, ?_, ?_, ?_, ?_⟩ <;> decide

/-- C3 (offset contiguity). In every write table that lines 445-576 compute,
the first record lies at `12 + 64 * k`, each later record lies at the offset of
the one before plus its size, and the total is the offset after the last
record, or 12 when the table is empty, all in arithmetic modulo `2 ^ 32`.
Whenever `pak_write` returns 1, the temporary file starts with the header and
the records of that table, the total being the total-size field. -/
theorem C3_offset_contiguity (p : pak_t) (fs : FS) (recs : List pak_write_t) (total : Nat)
    (h : pak_write_table p fs = Res.ret (recs, total)) :
    (∀ r, recs[0]? = some r → r.offset = (12 + 64 * recs.length) % U32) ∧
    (∀ i r r1, recs[i]? = some r → recs[i + 1]? = some r1 →
      r1.offset = (r.offset + r.size) % U32) ∧
    (recs = [] → total = 12) ∧
    (∀ r, recs.getLast? = some r → total = (r.offset + r.size) % U32) ∧
    ∀ (b : Build) (pak1 : Ptr pak_t) (fs1 : FS),
      pak_write b (Ptr.obj p) fs = Res.ret (1, pak1, fs1) →
      ∃ payload, fsRead fs1 tmp_pak = some (table_bytes b recs total ++ payload) := by
  obtain ⟨table, htable⟩ := pak_write_table_shape p fs (recs, total) h
  have hrecs : recs = (assign_offsets table ((12 + table.length * 64 % U32) % U32)).1 := by
    rw [← htable]
  have htotal : total = (assign_offsets table ((12 + table.length * 64 % U32) % U32)).2 := by
    rw [← htable]
  have hlen : recs.length = table.length := by
    rw [hrecs, assign_offsets_length]
  refine ⟨?_, ?_, ?_, ?_, ?_⟩
  · intro r0 h0
    rw [hrecs] at h0
    rw [assign_offsets_head _ _ _ h0, hlen, Nat.add_mod_mod, Nat.mul_comm]
  · intro i r0 r1 h0 h1
    rw [hrecs] at h0 h1
    exact assign_offsets_step _ _ _ _ _ h0 h1
  · intro hnil
    have : table = [] := by
      apply List.eq_nil_of_length_eq_zero
      rw [← hlen, hnil]
      rfl
    rw [htotal, this]
    rfl
  · intro r0 h0
    rw [hrecs] at h0
    rw [htotal]
    exact assign_offsets_total _ _ _ h0
  · intro b pak1 fs1 hw
    unfold pak_write at hw
    simp only [Ptr.deref, Res.ret_bind] at hw
    split at hw
    · rw [h] at hw
      simp only [Res.ret_bind] at hw
      split at hw
      · cases hw
      · rw [Res.bind_eq_ret] at hw
        obtain ⟨base, _, hw⟩ := hw
        rw [Res.bind_eq_ret] at hw
        obtain ⟨r, hr, hw⟩ := hw
        split at hw
        · split at hw
          · cases hw
          · cases hw
            obtain ⟨extra, hextra⟩ := pak_write_payload_extends _ _ _ _ _ _ hr
            exact ⟨extra, by rw [fsRead_fsWrite, hextra]⟩
        · cases hw
    · cases hw

/-- Witness of C3: the table of a handle whose entries have 5 and 7 bytes,
with records at 140 and 145 and the total 152; and the write of a handle with
two empty entries, which returns 1 and leaves the header and the records of its
table in the temporary file. -/
theorem C3_offset_contiguity_witness :
    pak_write_table sized_handle [(game_pak, [])] = Res.ret (sized_table, 152) ∧
    ((∀ r, sized_table[0]? = some r → r.offset = (12 + 64 * sized_table.length) % U32) ∧
     (∀ i r r1, sized_table[i]? = some r → sized_table[i + 1]? = some r1 →
       r1.offset = (r.offset + r.size) % U32) ∧
     (sized_table = [] → 152 = 12) ∧
     (∀ r, sized_table.getLast? = some r → 152 = (r.offset + r.size) % U32) ∧
     ∀ (b : Build) (pak1 : Ptr pak_t) (fs1 : FS),
       pak_write b (Ptr.obj sized_handle) [(game_pak, [])] = Res.ret (1, pak1, fs1) →
       ∃ payload, fsRead fs1 tmp_pak = some (table_bytes b sized_table 152 ++ payload)) ∧
    pak_write_table two_entry_handle [(game_pak, [])] = Res.ret (two_entry_table, 140) ∧
    pak_write build_msvc (Ptr.obj two_entry_handle) [(game_pak, [])] =
      Res.ret (1, Ptr.obj two_entry_clean, [(tmp_pak, two_entry_image), (game_pak, [])]) ∧
    ∃ payload, fsRead [(tmp_pak, two_entry_image), (game_pak, [])] tmp_pak =
      some (table_bytes build_msvc two_entry_table 140 ++ payload) :=
  ⟨by decide,
   C3_offset_contiguity sized_handle [(game_pak, [])] sized_table 152 (by decide),
   by decide, by decide,
   (C3_offset_contiguity two_entry_handle [(game_pak, [])] two_entry_table 140
     (by decide)).2.2.2.2 build_msvc (Ptr.obj two_entry_clean)
     [(tmp_pak, two_entry_image), (game_pak, [])] (by decide)⟩

/-- C4 (bad signature). A file of twelve bytes that starts with `JUNK` is
opened: the result is a handle, not null. -/
theorem C4_bad_signature_is_accepted (b : Build) :
    pak_open_file b pak_zero game_pak [(game_pak, junk_image)] =
      Res.ret (Ptr.obj fresh_handle, [(game_pak, junk_image)]) := by
  rcases b with ⟨_ | _, _ | _⟩ <;> decide

/-- C5 (well-formed pack). A file that starts with `PACK`, declares one entry
and holds its record is refused: the result is null. -/
theorem C5_well_formed_pack_is_refused (b : Build) :
    pak_open_file b pak_zero game_pak [(game_pak, pack_image)] =
      Res.ret (Ptr.null, [(game_pak, pack_image)]) := by
  rcases b with ⟨_ | _, _ | _⟩ <;> decide

/-- C6 (open of a missing path). When no file exists at the path,
`pak_open_file` creates an empty file there and returns a handle in file mode
with count 0, no entry table, the given path, an empty change log and
`has_change` clear. -/
theorem C6_open_missing_path (b : Build) (fresh : pak_t) (file : List Nat) (fs : FS)
    (h : fsRead fs file = none) :
    ∃ p, pak_open_file b fresh file fs = Res.ret (Ptr.obj p, fsWrite fs file []) ∧
      fsRead (fsWrite fs file []) file = some [] ∧
      p.file_mode = 1 ∧ p.count = 0 ∧ p.entries = [] ∧ p.filepath = some file ∧
      p.changes = [] ∧ p.change_count = 0 ∧ p.has_change = 0 := by
  refine ⟨{ fresh with
            file_mode := 1, count := 0, entries := [], file_size := 0, filepath := some file,
            changes := [], change_count := 0, has_change := 0 },
          ?_, fsRead_fsWrite fs file [], rfl, rfl, rfl, rfl, rfl, rfl, rfl⟩
  have h1 : (if (fsRead fs file).isSome then fs else fsWrite fs file []) = fsWrite fs file [] := by
    simp [h]
  unfold pak_open_file
  simp only [h1, fsRead_fsWrite]
  rcases b with ⟨_ | _, _ | _⟩ <;> rfl

/-- Witness of C6: the open of `game.pak` in an empty file system. -/
theorem C6_open_missing_path_witness :
    fsRead [] game_pak = none ∧
    ∃ p, pak_open_file build_msvc pak_zero game_pak [] =
        Res.ret (Ptr.obj p, fsWrite [] game_pak []) ∧
      fsRead (fsWrite [] game_pak []) game_pak = some [] ∧
      p.file_mode = 1 ∧ p.count = 0 ∧ p.entries = [] ∧ p.filepath = some game_pak ∧
      p.changes = [] ∧ p.change_count = 0 ∧ p.has_change = 0 :=
  ⟨by decide, C6_open_missing_path build_msvc pak_zero game_pak [] (by decide)⟩

/-- C7 (invalid input of `pak_open_mem`). When the data pointer is null, or
the length is 0, or the first four bytes of the buffer are not `PACK`, the
function returns null and the buffer is as it was. -/
theorem C7_open_mem_rejects (b : Build) (data : Ptr (List Nat)) (data_length : Nat)
    (h : data = Ptr.null ∨ data_length = 0 ∨
      ∃ buf, data = Ptr.obj buf ∧ 4 ≤ buf.length ∧ buf.take 4 ≠ PACK) :
    pak_open_mem b data data_length = Res.ret (Ptr.null, data) := by
  unfold pak_open_mem pak_open_mem_body
  rcases h with h | h | ⟨buf, h1, h2, h3⟩
  · subst h
    simp [Ptr.isNull]
  · subst h
    simp
  · subst h1
    by_cases hl : data_length = 0
    · subst hl
      simp
    · have h4 : ¬ buf.length < 4 := by omega
      simp [Ptr.isNull, hl, Ptr.deref, h4, h3]

/-- Witness of C7: a null pointer, a length of 0, and a buffer that starts
with `JUNK`. -/
theorem C7_open_mem_rejects_witness :
    pak_open_mem build_msvc Ptr.null 12 = Res.ret (Ptr.null, Ptr.null) ∧
    pak_open_mem build_msvc (Ptr.obj pack_image) 0 = Res.ret (Ptr.null, Ptr.obj pack_image) ∧
    (4 ≤ junk_image.length ∧ junk_image.take 4 ≠ PACK) ∧
    pak_open_mem build_msvc (Ptr.obj junk_image) 12 = Res.ret (Ptr.null, Ptr.obj junk_image) :=
  ⟨C7_open_mem_rejects build_msvc Ptr.null 12 (Or.inl rfl),
   C7_open_mem_rejects build_msvc (Ptr.obj pack_image) 0 (Or.inr (Or.inl rfl)),
   by decide,
   C7_open_mem_rejects build_msvc (Ptr.obj junk_image) 12
     (Or.inr (Or.inr ⟨junk_image, rfl, by decide, by decide⟩))⟩

/-- C8 (handle of `pak_open_mem`). For a well-formed pack the value returned
is the integer 1 as a pointer, on which `pak_count` has no defined result; the
table of the handle that was filled in starts at byte 768 of the buffer and
its count is 0; on the 81-byte pack the conversion of the table runs past the
end of the buffer. -/
theorem C8_open_mem_returns_no_handle :
    pak_open_mem build_msvc (Ptr.obj empty_pack_image) 12 =
      Res.ret (Ptr.wild 1, Ptr.obj empty_pack_image) ∧
    pak_count (Ptr.wild 1) = Res.ub ∧
    pak_open_mem build_msvc (Ptr.obj pack_image) 81 = Res.ub ∧
    pak_open_mem build_msvc (Ptr.obj long_pack_image) 832 =
      Res.ret (Ptr.wild 1, Ptr.obj long_pack_image) ∧
    pak_open_mem_body build_msvc (Ptr.obj long_pack_image) 832 =
      Res.ret (some long_pack_view, Ptr.obj long_pack_image) := by
  have e4 : convert_in_place build_msvc long_pack_image 4 = Res.ret long_pack_image := by
    set_option maxRecDepth 100000 in decide
  have e8 : convert_in_place build_msvc long_pack_image 8 = Res.ret long_pack_image := by
    set_option maxRecDepth 100000 in decide
  have e828 : convert_in_place build_msvc long_pack_image 828 = Res.ret long_pack_image := by
    set_option maxRecDepth 100000 in decide
  have e824 : convert_in_place build_msvc long_pack_image 824 = Res.ret long_pack_image := by
    set_option maxRecDepth 100000 in decide
  have hloop : pak_open_mem_loop build_msvc 1 0 long_pack_image = Res.ret long_pack_image := by
    simp only [pak_open_mem_loop]
    rw [e828]
    simp only [Res.ret_bind]
    rw [e824]
    rfl
  have hlen : ¬ long_pack_image.length < 4 := by
    set_option maxRecDepth 100000 in decide
  have hsig : (long_pack_image.take 4 != PACK) = false := by decide
  have hcount : load32 build_msvc (long_pack_image.drop 4) = 1 := by decide
  have hview : view_entries build_msvc 1 (long_pack_image.drop 768) = long_pack_view.entries := by
    set_option maxRecDepth 100000 in decide
  have hbody : pak_open_mem_body build_msvc (Ptr.obj long_pack_image) 832 =
      Res.ret (some long_pack_view, Ptr.obj long_pack_image) := by
    unfold pak_open_mem_body
    simp only [Ptr.isNull, Ptr.deref, Res.ret_bind, if_neg hlen, hsig, e4, e8, hcount, hloop,
      hview]
    rfl
  refine ⟨by decide, by decide, by decide, ?_, hbody⟩
  unfold pak_open_mem
  rw [hbody]
  rfl

/-- C9 (index validation). An index equal to the count passes the test
`index > pak->count` of both functions, which then read `entries[index]`: on
the handle of a new pack (count 0, null table) with index 0, and on a table of
one entry with index 1, neither call returns null or 0. An index above the
count is refused. -/
theorem C9_index_equal_to_count_is_read :
    pak_count (Ptr.obj fresh_handle) = Res.ret 0 ∧
    pak_extract (Ptr.obj fresh_handle) 0 [(game_pak, [])] = Res.ub ∧
    pak_extract_noalloc (Ptr.obj fresh_handle) 0 (Ptr.obj (List.replicate 8 0)) 8
      [(game_pak, [])] = Res.ub ∧
    pak_extract (Ptr.obj one_entry_handle) 1 [(game_pak, pack_image)] = Res.ub ∧
    pak_extract_noalloc (Ptr.obj one_entry_handle) 1 (Ptr.obj (List.replicate 8 0)) 8
      [(game_pak, pack_image)] = Res.ub ∧
    pak_extract (Ptr.obj one_entry_handle) 2 [(game_pak, pack_image)] =
      Res.ret (Ptr.null, none) := by
  refine ⟨?_, ?_, ?_, ?_, ?_, ?_⟩ <;> decide

/-- C10 (destination capacity). With a destination of one byte and
`out_cap = 1`, the extraction of an entry of five bytes stores five bytes and
returns 5. -/
theorem C10_capacity_is_not_enforced :
    pak_size (Ptr.obj one_entry_handle) 0 = Res.ret 5 ∧
    pak_extract_noalloc (Ptr.obj one_entry_handle) 0 (Ptr.obj [0]) 1
      [(game_pak, pack_image)] =
      Res.ret { returned := 5, out := Ptr.obj (cstr "hello"), out_freed := false } := by
  refine ⟨?_, ?_⟩ <;> decide

/-- C12 (a mutation marks the handle dirty). `pak_add_file` and `pak_add_mem`
return 1 on a handle whose `has_change` is 0 and leave it at 0; `pak_remove`
has no defined result, and the change that it builds has a null `filename`. -/
theorem C12_additions_leave_handle_clean :
    fresh_handle.has_change = 0 ∧
    pak_add_file (Ptr.obj fresh_handle) (some (cstr "a.txt")) =
      Res.ret (1, Ptr.obj file_added_handle) ∧
    file_added_handle.has_change = 0 ∧
    pak_add_mem (Ptr.obj fresh_handle) (some (cstr "a.txt")) (Ptr.obj (cstr "hello")) 5 =
      Res.ret (1, Ptr.obj added_handle) ∧
    added_handle.has_change = 0 ∧
    pak_remove (Ptr.obj one_entry_handle) 0 = Res.ub ∧
    (pak_remove_change 0).filename = none := by
  refine ⟨?_, ?_, ?_, ?_, ?_, ?_, ?_⟩ <;> decide

/-- C13 (memory-mode handles reject mutation). On a handle with
`file_mode = 0`, `pak_remove`, `pak_add_file` and `pak_add_mem` return 0 and
leave the handle as it was, whatever the other arguments. -/
theorem C13_memory_mode_rejects (p : pak_t) (h : p.file_mode = 0) (entry : Nat)
    (filename : Option (List Nat)) (data : Ptr (List Nat)) (data_length : Nat) :
    pak_remove (Ptr.obj p) entry = Res.ret (0, Ptr.obj p) ∧
    pak_add_file (Ptr.obj p) filename = Res.ret (0, Ptr.obj p) ∧
    pak_add_mem (Ptr.obj p) filename data data_length = Res.ret (0, Ptr.obj p) := by
  refine ⟨?_, ?_, ?_⟩
  · simp [pak_remove, Ptr.deref, h]
  · simp [pak_add_file, h]
  · simp [pak_add_mem, h]

/-- Witness of C13: the three calls on a memory-mode handle. -/
theorem C13_memory_mode_rejects_witness :
    mem_handle.file_mode = 0 ∧
    pak_remove (Ptr.obj mem_handle) 0 = Res.ret (0, Ptr.obj mem_handle) ∧
    pak_add_file (Ptr.obj mem_handle) (some (cstr "b.txt")) = Res.ret (0, Ptr.obj mem_handle) ∧
    pak_add_mem (Ptr.obj mem_handle) (some (cstr "b.txt")) (Ptr.obj (cstr "world")) 5 =
      Res.ret (0, Ptr.obj mem_handle) :=
  ⟨rfl, C13_memory_mode_rejects mem_handle rfl 0 (some (cstr "b.txt")) (Ptr.obj (cstr "world")) 5⟩

/-- C14 (little-endian on disk). On a little-endian host without the MSVC
macros `ltoh32` and `htol32` swap the bytes: the value 1 is written as
`00 00 00 01`, the table that `pak_write` leaves has every field most
significant byte first, and `pak_open_file` reads the little-endian count 1
as 16777216, so that it refuses a file which the MSVC build opens. -/
theorem C14_conversion_swaps_on_little_endian_host :
    ltoh32 build_gcc 1 = 16777216 ∧
    htol32 build_gcc 1 = 16777216 ∧
    le32_bytes 1 = [1, 0, 0, 0] ∧
    store32 build_gcc (ltoh32 build_gcc 1) = [0, 0, 0, 1] ∧
    pak_write build_gcc (Ptr.obj two_entry_handle) [(game_pak, [])] =
      Res.ret (1, Ptr.obj two_entry_clean,
        [(tmp_pak, two_entry_image_swapped), (game_pak, [])]) ∧
    ltoh32 build_gcc (load32 build_gcc (le32_bytes 1)) = 16777216 ∧
    pak_open_file build_gcc pak_zero game_pak [(game_pak, junk_one_image)] =
      Res.ret (Ptr.null, [(game_pak, junk_one_image)]) ∧
    pak_open_file build_msvc pak_zero game_pak [(game_pak, junk_one_image)] =
      Res.ret (Ptr.obj { one_entry_handle with filepath := none },
        [(game_pak, junk_one_image)]) := by
  refine ⟨?_, ?_, ?_, ?_, ?_, ?_, ?_, ?_⟩ <;> decide

/-- C15 (a failed write), counterexample. A dirty handle on a pack whose own
path is `tmp.pak`, the file holding the header and the two records of its
table: `pak_write` deletes `tmp.pak` as the stale temporary file and returns 0,
so the file at the path of the handle is gone. -/
theorem C15_failed_write_deletes_tmp_pak :
    tmp_two_entry_handle.filepath = some tmp_pak ∧
    tmp_two_entry_handle.has_change = 1 ∧
    fsRead [(tmp_pak, two_entry_image)] tmp_pak = some two_entry_image ∧
    pak_write build_msvc (Ptr.obj tmp_two_entry_handle) [(tmp_pak, two_entry_image)] =
      Res.ret (0, Ptr.obj tmp_two_entry_handle, []) ∧
    fsRead [] tmp_pak = none := by
  refine ⟨?_, ?_, ?_, ?_, ?_⟩ <;> decide

/-- C15 (a failed write), amended. Whenever `pak_write` returns 0 the handle
is the one passed in, with its entries, count, change log, `change_count` and
`has_change`, and every file other than `tmp.pak` has the content it had; so
the file at the path of the handle is unchanged when that path is not
`tmp.pak`. -/
theorem C15_failed_write_keeps_handle_and_files (b : Build) (pak pak1 : Ptr pak_t)
    (fs fs1 : FS) (h : pak_write b pak fs = Res.ret (0, pak1, fs1)) :
    pak1 = pak ∧ ∀ path, path ≠ tmp_pak → fsRead fs1 path = fsRead fs path := by
  unfold pak_write at h
  rw [Res.bind_eq_ret] at h
  obtain ⟨p, _, h⟩ := h
  split at h
  · rw [Res.bind_eq_ret] at h
    obtain ⟨placed, _, h⟩ := h
    split at h
    · cases h
      exact ⟨rfl, fun path hp => fsRead_fsRemove_ne fs path tmp_pak hp⟩
    · rw [Res.bind_eq_ret] at h
      obtain ⟨base, _, h⟩ := h
      rw [Res.bind_eq_ret] at h
      obtain ⟨r, _, h⟩ := h
      split at h
      · split at h
        · cases h
        · cases h
      · cases h
        refine ⟨rfl, fun path hp => ?_⟩
        rw [fsRead_fsWrite_ne _ path tmp_pak _ hp, fsRead_fsWrite_ne _ path tmp_pak _ hp]
  · cases h
    exact ⟨rfl, fun _ _ => rfl⟩

/-- Witness of C15: a dirty handle on `game.pak` while a stale `tmp.pak`
exists. -/
theorem C15_failed_write_keeps_handle_and_files_witness :
    pak_write build_msvc (Ptr.obj two_entry_handle) [(tmp_pak, [1, 2, 3]), (game_pak, [7])] =
      Res.ret (0, Ptr.obj two_entry_handle, [(game_pak, [7])]) ∧
    Ptr.obj two_entry_handle = Ptr.obj two_entry_handle ∧
    ∀ path, path ≠ tmp_pak →
      fsRead [(game_pak, [7])] path = fsRead [(tmp_pak, [1, 2, 3]), (game_pak, [7])] path :=
  ⟨by decide,
   C15_failed_write_keeps_handle_and_files build_msvc (Ptr.obj two_entry_handle)
     (Ptr.obj two_entry_handle) [(tmp_pak, [1, 2, 3]), (game_pak, [7])] [(game_pak, [7])]
     (by decide)⟩

/-- C16 (first-match lookup), counterexample. In a table of `2 ^ 31 + 1`
entries whose last entry is the only one named `b`, `pak_find` of `b` returns
`-2147483648`: the index `2 ^ 31` does not fit the `int32_t` result. -/
theorem C16_index_beyond_int32 :
    huge_handle.count = 2147483648 + 1 ∧
    huge_handle.entries[2147483648]? = some entry_b ∧
    strcmp_eq entry_a.name (cstr "b") = Res.ret false ∧
    strcmp_eq entry_b.name (cstr "b") = Res.ret true ∧
    pak_find (Ptr.obj huge_handle) (cstr "b") = Res.ret (-2147483648) := by
  have ha : strcmp_eq entry_a.name (cstr "b") = Res.ret false := by decide
  have hb : strcmp_eq entry_b.name (cstr "b") = Res.ret true := by decide
  have ht : to_int32 2147483648 = -2147483648 := by decide
  refine ⟨rfl, getElem?_replicate_append 2147483648 entry_a entry_b, ha, hb, ?_⟩
  have h := pak_find_loop_last entry_a entry_b (cstr "b") 2147483648 ha hb
  rw [ht] at h
  exact h

/-- C16 (first-match lookup), amended. For a null handle `pak_find` returns
-1. For a handle whose table holds `pak_count` records with terminated names
and `pak_count ≤ 2 ^ 31`, `pak_find` returns -1 exactly when no entry below
`pak_count` has the given name, and otherwise the least index below `pak_count`
whose entry has that name. -/
theorem C16_find_first_match (p : pak_t) (name : List Nat)
    (hlen : p.count ≤ p.entries.length) (hbound : p.count ≤ 2 ^ 31)
    (hterm : ∀ j e, j < p.count → p.entries[j]? = some e → 0 ∈ e.name) :
    pak_find Ptr.null name = Res.ret (-1) ∧
    ∃ r, pak_find (Ptr.obj p) name = Res.ret r ∧
      (r = -1 ↔ ∀ j e, j < p.count → p.entries[j]? = some e →
        strcmp_eq e.name name = Res.ret false) ∧
      (r ≠ -1 → ∃ (k : Nat) (e : pak_file_t), r = Int.ofNat k ∧ k < p.count ∧
        p.entries[k]? = some e ∧ strcmp_eq e.name name = Res.ret true ∧
        ∀ j e1, j < k → p.entries[j]? = some e1 → strcmp_eq e1.name name = Res.ret false) := by
  refine ⟨rfl, ?_⟩
  have h := pak_find_loop_spec p.entries name p.count 0 (by omega) (by omega)
    (fun j e _ h2 h3 => hterm j e (by omega) h3)
  rcases h with ⟨h1, h2⟩ | ⟨k, e, _, h2, h3, h4, h5, h6⟩
  · refine ⟨-1, h1, ?_, fun hne => absurd rfl hne⟩
    constructor
    · intro _ j e hj he
      exact h2 j e (Nat.zero_le j) (by omega) he
    · intro _
      rfl
  · refine ⟨Int.ofNat k, h3, ?_, ?_⟩
    · constructor
      · intro hk
        have : (0 : Int) ≤ Int.ofNat k := Int.ofNat_nonneg k
        omega
      · intro hall
        have := hall k e (by omega) h4
        rw [h5] at this
        cases this
    · intro _
      exact ⟨k, e, rfl, by omega, h4, h5, fun j e1 hj he1 => h6 j e1 (Nat.zero_le j) hj he1⟩

/-- Witness of C16: the lookups of `a.txt` and of `b.txt` in a table of one
entry. -/
theorem C16_find_first_match_witness :
    pak_find (Ptr.obj one_entry_handle) (cstr "a.txt") = Res.ret 0 ∧
    pak_find (Ptr.obj one_entry_handle) (cstr "b.txt") = Res.ret (-1) ∧
    pak_find Ptr.null (cstr "a.txt") = Res.ret (-1) ∧
    ∃ r, pak_find (Ptr.obj one_entry_handle) (cstr "a.txt") = Res.ret r ∧
      (r = -1 ↔ ∀ j e, j < one_entry_handle.count → one_entry_handle.entries[j]? = some e →
        strcmp_eq e.name (cstr "a.txt") = Res.ret false) ∧
      (r ≠ -1 → ∃ (k : Nat) (e : pak_file_t), r = Int.ofNat k ∧ k < one_entry_handle.count ∧
        one_entry_handle.entries[k]? = some e ∧
        strcmp_eq e.name (cstr "a.txt") = Res.ret true ∧
        ∀ j e1, j < k → one_entry_handle.entries[j]? = some e1 →
          strcmp_eq e1.name (cstr "a.txt") = Res.ret false) :=
  ⟨by decide, by decide,
   C16_find_first_match one_entry_handle (cstr "a.txt") (by decide) (by decide)
     (by
       intro j e hj he
       have hj0 : j = 0 := by
         have : one_entry_handle.count = 1 := rfl
         omega
       subst hj0
       have : e = { name := name_field "a.txt", offset := 76, size := 5 } := by
         have h0 : one_entry_handle.entries[0]? =
             some { name := name_field "a.txt", offset := 76, size := 5 } := rfl
         rw [h0] at he
         cases he
         rfl
       subst this
       decide)⟩

/-- C17 (cache hit). A caller's asset named `a.txt` is added to an empty map by
`asset_map_add`, which leaves `count` at 0. `asset_map_get` of `a.txt` then
skips the slots: with a file `a.txt` it loads the file into a new asset, fills
slot 1 and advances `count` and `uid_counter`; without the file it has no
defined result. -/
theorem C17_added_asset_is_not_served :
    asset_map_add empty_map [hello_asset] (some 0) = Res.ret (tracking_map, [hello_asset]) ∧
    tracking_map.count = 0 ∧
    asset_map_get asset_zero tracking_map [hello_asset] (cstr "a.txt")
        [(cstr "a.txt", cstr "HI")] =
      Res.ret (some 1,
        { tracking_map with assets := [some 0, some 1], count := 1, uid_counter := 1 },
        [hello_asset, loaded_asset]) ∧
    asset_map_get asset_zero tracking_map [hello_asset] (cstr "a.txt") [] = Res.ub := by
  refine ⟨?_, ?_, ?_, ?_⟩ <;> decide

/-- C18 (pack-backed get). For a map with empty slots and a pack, when
`pak_find` returns -1 `asset_map_get` returns null; when it returns an index
and `pak_extract` at that index returns, `asset_map_get` returns a new asset
whose data is the pointer that `pak_extract` returned and whose length is the
size it stored, with `fs = 0` and `filled = 1`. -/
theorem C18_pack_get_agrees_with_extract (fresh : asset_t) (map : asset_map_t) (heap : Heap)
    (file : List Nat) (fs : FS) (p : pak_t) (r : Int)
    (hpak : map.pak = Ptr.obj p) (hempty : map.assets = List.replicate map.capacity none)
    (hfind : pak_find (Ptr.obj p) file = Res.ret r) :
    (r = -1 → asset_map_get fresh map heap file fs =
      Res.ret (none, { map with uid_counter := (map.uid_counter + 1) % U32 }, heap)) ∧
    (r ≠ -1 → ∀ d sz, pak_extract (Ptr.obj p) (to_uint32 r) fs = Res.ret (d, sz) →
      ∃ a, asset_map_get fresh map heap file fs =
          Res.ret (some heap.length, { map with uid_counter := (map.uid_counter + 1) % U32 },
            heap ++ [a]) ∧
        a.data = d ∧ (∀ n, sz = some n → a.data_length = n) ∧ a.fs = 0 ∧ a.filled = 1) := by
  have hscan : (if map.count > 0 then asset_map_scan map heap file map.capacity 0
      else Res.ret none : Res (Option Nat)) = Res.ret none := by
    split
    · exact asset_map_scan_empty map heap file hempty map.capacity 0 (by omega)
    · rfl
  have hnull : (!map.pak.isNull) = true := by
    rw [hpak]
    rfl
  constructor
  · intro hr
    subst hr
    unfold asset_map_get
    rw [hscan]
    simp only [Res.ret_bind, hnull, if_true]
    unfold asset_map_get_pak
    rw [hpak, hfind]
    rfl
  · intro hr d sz hex
    have hne : (r == -1) = false := by simpa using hr
    refine ⟨{ fresh with
              name := some file, uid := (map.uid_counter + 1) % U32, req := 0, req_free := 0,
              fs := 0, data := d, data_length := sz.getD fresh.data_length, filled := 1 },
      ?_, rfl, ?_, rfl, rfl⟩
    · unfold asset_map_get
      rw [hscan]
      simp only [Res.ret_bind, hnull, if_true]
      unfold asset_map_get_pak
      rw [hpak, hfind]
      simp only [Res.ret_bind, hne, hex]
      rfl
    · intro n hn
      subst hn
      rfl

/-- Witness of C18: the get of `a.txt` from a map backed by the pack of
`one_entry_handle`. -/
theorem C18_pack_get_agrees_with_extract_witness :
    pak_find (Ptr.obj one_entry_handle) (cstr "a.txt") = Res.ret 0 ∧
    pak_extract (Ptr.obj one_entry_handle) (to_uint32 0) [(game_pak, pack_image)] =
      Res.ret (Ptr.obj (cstr "hello"), some 5) ∧
    ∃ a, asset_map_get asset_zero pack_map [] (cstr "a.txt") [(game_pak, pack_image)] =
        Res.ret (some 0, { pack_map with uid_counter := 1 }, [a]) ∧
      a.data = Ptr.obj (cstr "hello") ∧ (∀ n, some 5 = some n → a.data_length = n) ∧
      a.fs = 0 ∧ a.filled = 1 :=
  ⟨by decide, by decide,
   (C18_pack_get_agrees_with_extract asset_zero pack_map [] (cstr "a.txt")
     [(game_pak, pack_image)] one_entry_handle 0 rfl rfl (by decide)).2 (by decide)
     (Ptr.obj (cstr "hello")) (some 5) (by decide)⟩

/-- C19 (failed filesystem get). On an empty map without a pack, the get of a
name that is no file has no defined result: line 881 stores the id through the
null pointer that `asset_get` returned. -/
theorem C19_missing_file_faults :
    asset_get asset_zero (some (cstr "missing.bin")) [] = none ∧
    asset_map_get asset_zero empty_map [] (cstr "missing.bin") [] = Res.ub := by
  refine ⟨?_, ?_⟩ <;> decide

/-- C20 (unique ids). From an empty map, `asset_map_get` of the file `x.txt`
stores a new asset with id 1 in slot 0; `asset_map_add` of a caller's asset then
takes slot 1 and sets its id to the slot index 1. The map tracks two assets
with the id 1. -/
theorem C20_two_tracked_assets_share_an_id :
    asset_map_get asset_zero empty_map [hello_asset] (cstr "x.txt") [(cstr "x.txt", [1, 2])] =
      Res.ret (some 1, { empty_map with assets := [some 1, none], count := 1, uid_counter := 1 },
        [hello_asset, x_asset]) ∧
    asset_map_add { empty_map with assets := [some 1, none], count := 1, uid_counter := 1 }
        [hello_asset, x_asset] (some 0) =
      Res.ret ({ empty_map with assets := [some 1, some 0], count := 1, uid_counter := 1 },
        [{ hello_asset with uid := 1 }, x_asset]) ∧
    ({ hello_asset with uid := 1 } : asset_t).uid = x_asset.uid ∧
    ({ hello_asset with uid := 1 } : asset_t) ≠ x_asset := by
  refine ⟨?_, ?_, ?_, ?_⟩ <;> decide

/-- C22 (chunk clamping). On a file of 100 bytes the chunk at start 0 of
length `10 ^ 9` has 100 bytes. The chunk at start 10 of length `2 ^ 32 - 5` is
refused: the 32-bit sum of line 1022 wraps to 5, which is not above the file
size, so the length is not clamped to 90 and the read of line 1037 falls
short. -/
theorem C22_clamp_fails_when_sum_wraps :
    hundred_bytes.length = 100 ∧
    (asset_get_chunk asset_zero (some a_bin) 0 1000000000 [(a_bin, hundred_bytes)]).map
      (fun a => a.data_length) = some 100 ∧
    4294967291 < U32 ∧
    (10 + 4294967291) % U32 = 5 ∧
    min 4294967291 (100 - 10) = 90 ∧
    asset_get_chunk asset_zero (some a_bin) 10 4294967291 [(a_bin, hundred_bytes)] = none := by
  refine ⟨?_, ?_, ?_, ?_, ?_, ?_⟩ <;> decide

/-- C23 (removal from a map). `asset_map_get` of `a.txt` stores the new asset
in slot 0 with the id 1. `asset_map_remove` of that asset looks at slot 1, which
is empty, and changes nothing: slot 0 still holds the asset and a later get
returns it. Once `x.txt` is loaded into slot 1, `asset_map_remove` of the first
asset releases the block of the second one and clears its id; both slots keep
their pointers, and a later get of `x.txt` returns the released asset. -/
theorem C23_remove_keeps_asset_tracked :
    asset_map_get asset_zero empty_map [] (cstr "a.txt") [(cstr "a.txt", cstr "HI")] =
      Res.ret (some 0, one_tracked_map, [loaded_asset]) ∧
    asset_map_remove one_tracked_map [loaded_asset] (some 0) =
      Res.ret (one_tracked_map, [loaded_asset]) ∧
    asset_map_get asset_zero one_tracked_map [loaded_asset] (cstr "a.txt") [] =
      Res.ret (some 0, one_tracked_map, [loaded_asset]) ∧
    asset_map_get asset_zero one_tracked_map [loaded_asset] (cstr "x.txt")
        [(cstr "x.txt", [1, 2])] =
      Res.ret (some 1, two_tracked_map, [loaded_asset, x_asset_two]) ∧
    asset_map_remove two_tracked_map [loaded_asset, x_asset_two] (some 0) =
      Res.ret (two_tracked_map,
        [loaded_asset, { x_asset_two with data := freed_block, uid := 0 }]) ∧
    asset_map_get asset_zero two_tracked_map
        [loaded_asset, { x_asset_two with data := freed_block, uid := 0 }] (cstr "x.txt") [] =
      Res.ret (some 1, two_tracked_map,
        [loaded_asset, { x_asset_two with data := freed_block, uid := 0 }]) := by
  refine ⟨?_, ?_, ?_, ?_, ?_, ?_⟩ <;> decide

/-- C24 (deferred frees). On a map with an empty slot `asset_map_update` has
no defined result: line 985 reads `filled` through the null pointer of the
slot. This holds for the map as created and for a map that tracks one asset
next to an empty slot. -/
theorem C24_update_faults_on_empty_slot :
    asset_map_update empty_map [] = Res.ub ∧
    tracking_map.assets = [some 0, none] ∧
    asset_map_update tracking_map [hello_asset] = Res.ub := by
  refine ⟨?_, ?_, ?_⟩ <;> decide

/-- C25 (write table). A dirty handle on a new pack whose change log holds a
removal and then the addition of five bytes under the name `x`: `pak_write`
returns 1 and writes a table of no record, because the loop of lines 537-568
stops at the removal, whose size is 0. On the handle that `pak_add_mem` leaves
for an addition alone, the table has no defined value (line 562). -/
theorem C25_add_after_remove_is_not_written :
    remove_add_handle.changes.map (fun c => c.type) =
      [pak_change_type.PAK_REMOVE, pak_change_type.PAK_ADD_MEM] ∧
    remove_add_handle.changes.map (fun c => c.data.get_data_length) =
      [Res.ret 0, Res.ret 5] ∧
    pak_write_table remove_add_handle [(game_pak, [])] = Res.ret ([], 12) ∧
    pak_write build_msvc (Ptr.obj remove_add_handle) [(game_pak, [])] =
      Res.ret (1, Ptr.obj fresh_handle, [(tmp_pak, empty_pack_image), (game_pak, [])]) ∧
    pak_add_mem (Ptr.obj fresh_handle) (some (cstr "a.txt")) (Ptr.obj (cstr "hello")) 5 =
      Res.ret (1, Ptr.obj added_handle) ∧
    pak_write_table added_handle [(game_pak, [])] = Res.ub := by
  refine ⟨?_, ?_, ?_, ?_, ?_, ?_⟩ <;> decide

/-- C26 (chunk content). On a file holding the bytes 10 to 15, the chunk at
start 2 of length 3 holds the bytes 10, 11, 12, the first three of the file,
and not the bytes 12, 13, 14 at positions 2 to 4; `chunk` is 1 and
`chunk_start` is 2. -/
theorem C26_chunk_is_read_from_file_start :
    asset_get_chunk asset_zero (some a_bin) 2 3 [(a_bin, [10, 11, 12, 13, 14, 15])] =
      some { asset_zero with
        data := Ptr.obj [10, 11, 12, 0], data_length := 3, name := some a_bin, filled := 1,
        chunk := 1, chunk_start := 2 } ∧
    (([10, 11, 12, 13, 14, 15] : List Nat).drop 2).take 3 = [12, 13, 14] := by
  refine ⟨?_, ?_⟩ <;> decide

/-- C27 (short read). The pack file is cut after two of the five bytes of its
entry. `pak_extract` of the entry returns a block of five bytes, the two that
were read and three zero bytes, and stores the size 5. -/
theorem C27_short_read_returns_buffer :
    one_entry_handle.entries[0]? = some { name := name_field "a.txt", offset := 76, size := 5 } ∧
    fread_at truncated_image 76 5 = [104, 101] ∧
    pak_extract (Ptr.obj one_entry_handle) 0 [(game_pak, truncated_image)] =
      Res.ret (Ptr.obj [104, 101, 0, 0, 0], some 5) := by
  refine ⟨?_, ?_, ?_⟩ <;> decide

/-- C28 (stale temporary file). A dirty handle with two empty entries:
without `tmp.pak` the write returns 1 and leaves `tmp.pak`; with that `tmp.pak`
present, the write of the same handle deletes it and returns 0, leaving the
handle dirty and no new file. The same holds for a dirty handle on a new pack
whose change log holds a removal. -/
theorem C28_stale_tmp_pak_fails_write :
    pak_write build_msvc (Ptr.obj two_entry_handle) [(game_pak, [])] =
      Res.ret (1, Ptr.obj two_entry_clean, [(tmp_pak, two_entry_image), (game_pak, [])]) ∧
    pak_write build_msvc (Ptr.obj two_entry_handle)
        [(tmp_pak, two_entry_image), (game_pak, [])] =
      Res.ret (0, Ptr.obj two_entry_handle, [(game_pak, [])]) ∧
    two_entry_handle.has_change = 1 ∧
    pak_write build_msvc (Ptr.obj fresh_removed) [(game_pak, [])] =
      Res.ret (1, Ptr.obj fresh_handle, [(tmp_pak, empty_pack_image), (game_pak, [])]) ∧
    pak_write build_msvc (Ptr.obj fresh_removed)
        [(tmp_pak, empty_pack_image), (game_pak, [])] =
      Res.ret (0, Ptr.obj fresh_removed, [(game_pak, [])]) ∧
    fresh_removed.has_change = 1 := by
  refine ⟨?_, ?_, ?_, ?_, ?_, ?_⟩ <;> decide

/-- C29 (map write). The pack holds `a.txt` at index 0 and no `b.txt`; the map
tracks an asset named `a.txt` and an asset named `b.txt`. `asset_map_write`
appends an addition for `a.txt`, none for `b.txt`, and returns the 0 of
`pak_write` on a handle that is not dirty. For a map with no pack it returns
0. -/
theorem C29_write_queues_asset_at_index_zero :
    pak_find (Ptr.obj one_entry_handle) (cstr "a.txt") = Res.ret 0 ∧
    pak_find (Ptr.obj one_entry_handle) (cstr "b.txt") = Res.ret (-1) ∧
    asset_map_write build_msvc write_map [hello_asset, world_asset] [(game_pak, pack_image)] =
      Res.ret (0, { write_map with pak := Ptr.obj one_entry_added }, [(game_pak, pack_image)]) ∧
    one_entry_added.changes.map (fun c => c.filename) = [some (cstr "a.txt")] ∧
    asset_map_write build_msvc empty_map [] [] = Res.ret (0, empty_map, []) := by
  refine ⟨?_, ?_, ?_, ?_, ?_⟩ <;> decide

/-- C30 (write of a buffer). For a buffer of two or more bytes `asset_write`
stores every byte in the file and returns 0: line 1075 compares the number of
items that `fwrite` wrote, 1, with the number of bytes. For one byte it returns
1. -/
theorem C30_item_count_is_compared_with_length (path : List Nat) (x y : Nat) (rest : List Nat)
    (fs : FS) :
    (∃ fs1, asset_write (some path) (Ptr.obj (x :: y :: rest)) (rest.length + 2) fs =
        Res.ret (0, fs1) ∧ fsRead fs1 path = some (x :: y :: rest)) ∧
    asset_write (some a_bin) (Ptr.obj (cstr "HI")) 2 [] = Res.ret (0, [(a_bin, cstr "HI")]) ∧
    asset_write (some a_bin) (Ptr.obj (cstr "H")) 1 [] = Res.ret (1, [(a_bin, cstr "H")]) := by
  refine ⟨⟨fsWrite (fsWrite fs path []) path (x :: y :: rest), ?_, fsRead_fsWrite _ _ _⟩, ?_, ?_⟩
  · unfold asset_write fwrite_item
    simp [Ptr.deref]
  · decide
  · decide

end Astera
